import Mathlib

/-!
Verification of the drone_Lips simulation core against its specification.

The definitions below are a shallow embedding of the TypeScript sources:
  - src/drone-lips/src/game/math.ts   (clamp, lerp, randRange, the Game class)
  - src/drone-lips/src/game/Projectiles.ts (LaserShot, MissileShot)
  - the Enemy class (spawn / update / takeDamage state machine)
  - src/drone-lips/src/game/levels.ts (LEVELS table, getLevelConfig)
  - the InputRouter (update / one-shot queue consumption)
  - the world strategies (OrbitWorld, EarthParkWorld) as far as reset and
    pool sizing are concerned.

JavaScript `number` arithmetic is embedded as exact arithmetic: rational
constants stay in `ℚ` where the code only ever adds, multiplies and
compares them, and `ℝ` is used where the code calls `Math.exp`, `Math.sin`,
`Math.sqrt` (vector norms) or `Math.PI`.  `Math.random()` is embedded as an
explicit stream of samples (`Rng`) threaded through every randomized
operation, one sample per call, so every randomized function is a pure
function of its sample stream.
-/

namespace DroneLips

/-! ## math.ts utilities -/

/-- Embeds `clamp(value, min, max) = Math.max(min, Math.min(max, value))` from math.ts. -/
def clamp {α : Type} [LinearOrder α] (value lo hi : α) : α :=
  max lo (min hi value)

/-- Embeds `lerp(a, b, t) = a + (b - a) * t` from math.ts (also THREE.MathUtils.lerp). -/
def lerp (a b t : ℝ) : ℝ := a + (b - a) * t

/-- Explicit random stream standing in for `Math.random()`: a function from
call index to the sample in `[0,1)` returned by that call. -/
structure Rng where
  seq : ℕ → ℚ
  idx : ℕ

/-- One call to `Math.random()`: returns the current sample and advances. -/
def Rng.sample (r : Rng) : ℚ × Rng := (r.seq r.idx, ⟨r.seq, r.idx + 1⟩)

/-- Embeds `randRange(min, max) = min + Math.random() * (max - min)` from math.ts. -/
def randRange (lo hi : ℚ) (r : Rng) : ℚ × Rng :=
  let s := r.sample
  (lo + s.1 * (hi - lo), s.2)

/-- Embeds `Math.round` on an exact rational: round half toward positive infinity. -/
def jsRound (q : ℚ) : ℤ := ⌊q + 1 / 2⌋

/-- A constant random stream (used to instantiate theorems). -/
def rngZero : Rng := ⟨fun _ => 0, 0⟩

/-! ## THREE.Vector3 (the operations the simulation uses) -/

/-- A THREE.Vector3 value. -/
structure Vec3 where
  x : ℝ
  y : ℝ
  z : ℝ

def Vec3.zero : Vec3 := ⟨0, 0, 0⟩

def Vec3.add (a b : Vec3) : Vec3 := ⟨a.x + b.x, a.y + b.y, a.z + b.z⟩

def Vec3.sub (a b : Vec3) : Vec3 := ⟨a.x - b.x, a.y - b.y, a.z - b.z⟩

def Vec3.smul (a : Vec3) (c : ℝ) : Vec3 := ⟨a.x * c, a.y * c, a.z * c⟩

/-- Embeds `THREE.Vector3.lerp`: componentwise `a + (b - a) * t`. -/
def Vec3.vlerp (a b : Vec3) (t : ℝ) : Vec3 :=
  ⟨a.x + (b.x - a.x) * t, a.y + (b.y - a.y) * t, a.z + (b.z - a.z) * t⟩

/-- Embeds `THREE.Vector3.length()`. -/
noncomputable def Vec3.length (v : Vec3) : ℝ :=
  Real.sqrt (v.x * v.x + v.y * v.y + v.z * v.z)

/-- Embeds `THREE.Vector3.normalize()`: `divideScalar(length() || 1)` — the zero
vector is left unchanged (division by `1`). -/
noncomputable def Vec3.normalize (v : Vec3) : Vec3 :=
  v.smul (1 / (if v.length = 0 then 1 else v.length))

/-! ## Enemy (spawn / approach / damage / death state machine)

Embedding of the `Enemy` class.  The THREE mesh is reduced to the state the
class reads and writes through it: position, z-rotation, scale, visibility.
`hp` is kept in `ℚ` (a JS number), `maxHp` in `ℤ` (the constructor makes it
`Math.max(1, Math.floor(cfg.hp))`, an integer). -/

inductive EnemyKind
  | ship
  | spike
deriving DecidableEq

structure EnemySpawnBounds where
  xRange : ℚ
  yRange : ℚ
  zMin : ℚ
  zMax : ℚ

structure EnemyConfig where
  kind : EnemyKind
  hp : ℚ
  radius : ℚ
  approachSpeed : ℚ
  reward : ℚ

structure Enemy where
  id : ℕ
  kind : EnemyKind
  maxHp : ℤ
  hp : ℚ
  alive : Bool
  radius : ℚ
  approachSpeed : ℚ
  reward : ℤ
  pos : Vec3
  rotZ : ℝ
  scale : ℝ
  visible : Bool

/-- The `Enemy` constructor: clamps its configuration exactly as the source
does (`maxHp = max(1, floor(cfg.hp))`, `radius = max(0.2, cfg.radius)`,
`approachSpeed = max(1, cfg.approachSpeed)`, `reward = max(1, floor(cfg.reward))`)
and starts alive at full hp with the mesh at the origin and visible. -/
def enemyMk (id : ℕ) (kind : EnemyKind) (cfg : EnemyConfig) : Enemy :=
  { id := id
    kind := kind
    maxHp := max 1 ⌊cfg.hp⌋
    hp := ((max 1 ⌊cfg.hp⌋ : ℤ) : ℚ)
    alive := true
    radius := max (1 / 5) cfg.radius
    approachSpeed := max 1 cfg.approachSpeed
    reward := max 1 ⌊cfg.reward⌋
    pos := Vec3.zero
    rotZ := 0
    scale := 1
    visible := true }

/-- Embeds `Enemy.spawn(bounds, playerY)`: restores `alive`/`hp`, re-randomizes the
position inside the spawn bounds (biased by a quarter of the player's
altitude), resets rotation and scale and makes the mesh visible. -/
def Enemy.spawn (e : Enemy) (bounds : EnemySpawnBounds) (playerY : ℝ) (r : Rng) :
    Enemy × Rng :=
  let sx := randRange (-bounds.xRange) bounds.xRange r
  let sy := randRange (-bounds.yRange) bounds.yRange sx.2
  let sz := randRange bounds.zMin bounds.zMax sy.2
  ({ e with
      alive := true
      hp := (e.maxHp : ℚ)
      pos := ⟨(sx.1 : ℝ), (sy.1 : ℝ) + playerY * 0.25, (sz.1 : ℝ)⟩
      rotZ := 0
      scale := 1
      visible := true }, sz.2)

/-- Embeds `Enemy.update(dt, worldSpeed, playerPos, timeMs)`: dead enemies are inert;
living ones approach along -z at `worldSpeed + approachSpeed`, steer toward
the player laterally with exponential smoothing, and wobble in rotation. -/
noncomputable def Enemy.update (e : Enemy) (dt worldSpeed : ℝ) (playerPos : Vec3)
    (timeMs : ℝ) : Enemy :=
  if e.alive then
    let t := 1 - Real.exp (-(0.8) * dt)
    { e with
        pos := ⟨lerp e.pos.x playerPos.x t, lerp e.pos.y playerPos.y t,
                e.pos.z - (worldSpeed + (e.approachSpeed : ℝ)) * dt⟩
        rotZ := Real.sin (timeMs * 0.0015 + (e.id : ℝ)) * 0.15 }
  else e

/-- Embeds `Enemy.takeDamage(amount)`: no-op when dead; otherwise subtracts
`Math.max(1, Math.floor(amount))`, clamps to `[0, maxHp]`, and kills the
enemy (hiding its mesh) exactly when hp lands at 0. -/
def Enemy.takeDamage (e : Enemy) (amount : ℚ) : Enemy :=
  if e.alive then
    let hp' := clamp (e.hp - ((max 1 ⌊amount⌋ : ℤ) : ℚ)) 0 (e.maxHp : ℚ)
    if hp' ≤ 0 then { e with hp := hp', alive := false, visible := false }
    else { e with hp := hp' }
  else e

/-- The Enemy class invariant: `maxHp` is at least 1 (established by the
constructor and never written again), hp stays in `[0, maxHp]`, and the
entity is alive exactly while hp is positive. -/
def EnemyInv (e : Enemy) : Prop :=
  1 ≤ e.maxHp ∧ 0 ≤ e.hp ∧ e.hp ≤ (e.maxHp : ℚ) ∧ (e.alive = true ↔ 0 < e.hp)

/-- C5 as the spec states it: `takeDamage(amount)` subtracts `floor(amount)`
(rather than `max(1, floor(amount))`), clamps to `[0, maxHp]`, flips `alive`
exactly when hp reaches 0, and is a no-op on a dead enemy. -/
def claimC5Stated : Prop :=
  ∀ (e : Enemy) (amount : ℚ),
    (e.alive = true →
      (e.takeDamage amount).hp = clamp (e.hp - ((⌊amount⌋ : ℤ) : ℚ)) 0 (e.maxHp : ℚ) ∧
      0 ≤ (e.takeDamage amount).hp ∧
      (e.takeDamage amount).hp ≤ (e.maxHp : ℚ) ∧
      ((e.takeDamage amount).alive = false ↔ (e.takeDamage amount).hp = 0)) ∧
    (e.alive = false → e.takeDamage amount = e)

/-- A living enemy with 3 hp out of 3. -/
def enemyFull3 : Enemy :=
  { id := 1
    kind := EnemyKind.ship
    maxHp := 3
    hp := 3
    alive := true
    radius := 6 / 5
    approachSpeed := 7
    reward := 10
    pos := Vec3.zero
    rotZ := 0
    scale := 1
    visible := true }

/-- A dead enemy (0 hp). -/
def enemyDead : Enemy :=
  { id := 2
    kind := EnemyKind.spike
    maxHp := 2
    hp := 0
    alive := false
    radius := 11 / 10
    approachSpeed := 9
    reward := 5
    pos := Vec3.zero
    rotZ := 0
    scale := 1
    visible := false }

/-- A living enemy mid-way through its hp. -/
def enemyMid : Enemy :=
  { id := 3
    kind := EnemyKind.ship
    maxHp := 3
    hp := 2
    alive := true
    radius := 6 / 5
    approachSpeed := 7
    reward := 10
    pos := Vec3.zero
    rotZ := 0
    scale := 1
    visible := true }

/-- The per-kind enemy configuration used by `createEnemiesForLevel` (ship). -/
def shipConfig : EnemyConfig :=
  { kind := EnemyKind.ship, hp := 3, radius := 6 / 5, approachSpeed := 7, reward := 10 }

/-- The per-kind enemy configuration used by `createEnemiesForLevel` (spike). -/
def spikeConfig : EnemyConfig :=
  { kind := EnemyKind.spike, hp := 2, radius := 11 / 10, approachSpeed := 9, reward := 5 }

/-- The fallback enemy spawn bounds used by `Game.reset` when no world exists. -/
def defaultSpawnBounds : EnemySpawnBounds := ⟨12, 7, 110, 190⟩

/-! ## levels.ts: the level table and getLevelConfig -/

inductive Environment
  | earthPark
  | earthParkSlalom
  | city
  | coast
  | desert
  | military
  | upperAtmos
  | orbit
  | alien
  | war
deriving DecidableEq

structure LevelBossConfig where
  hp : ℚ
  spawnAtScore : ℚ
  ufoSupportRate : ℚ
deriving DecidableEq

structure LevelConfig where
  id : ℚ
  name : String
  environment : Environment
  autoForward : Bool
  baseSpeed : ℚ
  maxSpeed : ℚ
  accelPerSec : ℚ
  boostMultiplier : ℚ
  windForce : ℚ
  obstacleDensity : ℚ
  asteroidCount : ℚ
  pickupRate : ℚ
  enemyRate : ℚ
  ufoRate : ℚ
  pickupScore : ℚ
  enemyScoreMin : ℚ
  enemyScoreMax : ℚ
  boss : Option LevelBossConfig
deriving DecidableEq

def level1 : LevelConfig :=
  { id := 1, name := "NYC Park Tutorial", environment := Environment.earthPark
    autoForward := false, baseSpeed := 0, maxSpeed := 6, accelPerSec := 1.2
    boostMultiplier := 1.6, windForce := 0.05, obstacleDensity := 0.35
    asteroidCount := 0, pickupRate := 0.25, enemyRate := 0, ufoRate := 0
    pickupScore := 1, enemyScoreMin := 5, enemyScoreMax := 10, boss := none }

def level2 : LevelConfig :=
  { id := 2, name := "Park Slalom", environment := Environment.earthParkSlalom
    autoForward := false, baseSpeed := 0.5, maxSpeed := 7, accelPerSec := 1.4
    boostMultiplier := 1.7, windForce := 0.08, obstacleDensity := 0.55
    asteroidCount := 0, pickupRate := 0.45, enemyRate := 0, ufoRate := 0
    pickupScore := 1, enemyScoreMin := 5, enemyScoreMax := 10, boss := none }

def level3 : LevelConfig :=
  { id := 3, name := "City Flight", environment := Environment.city
    autoForward := true, baseSpeed := 1.2, maxSpeed := 9, accelPerSec := 1.8
    boostMultiplier := 1.7, windForce := 0.1, obstacleDensity := 0.65
    asteroidCount := 0, pickupRate := 0.55, enemyRate := 0.1, ufoRate := 0
    pickupScore := 1, enemyScoreMin := 5, enemyScoreMax := 10, boss := none }

def level4 : LevelConfig :=
  { id := 4, name := "Coast Wind Run", environment := Environment.coast
    autoForward := true, baseSpeed := 1.8, maxSpeed := 10, accelPerSec := 2
    boostMultiplier := 1.8, windForce := 0.22, obstacleDensity := 0.45
    asteroidCount := 0, pickupRate := 0.6, enemyRate := 0.18, ufoRate := 0
    pickupScore := 1, enemyScoreMin := 5, enemyScoreMax := 10, boss := none }

def level5 : LevelConfig :=
  { id := 5, name := "Desert Canyon", environment := Environment.desert
    autoForward := true, baseSpeed := 2.2, maxSpeed := 11, accelPerSec := 2.2
    boostMultiplier := 1.9, windForce := 0.12, obstacleDensity := 0.7
    asteroidCount := 0, pickupRate := 0.65, enemyRate := 0.28, ufoRate := 0
    pickupScore := 1, enemyScoreMin := 5, enemyScoreMax := 10, boss := none }

def level6 : LevelConfig :=
  { id := 6, name := "Military Base Combat", environment := Environment.military
    autoForward := true, baseSpeed := 2.6, maxSpeed := 12, accelPerSec := 2.4
    boostMultiplier := 2, windForce := 0.1, obstacleDensity := 0.55
    asteroidCount := 0, pickupRate := 0.6, enemyRate := 0.5, ufoRate := 0.05
    pickupScore := 1, enemyScoreMin := 6, enemyScoreMax := 10, boss := none }

def level7 : LevelConfig :=
  { id := 7, name := "Upper Atmosphere", environment := Environment.upperAtmos
    autoForward := true, baseSpeed := 3, maxSpeed := 13, accelPerSec := 2.6
    boostMultiplier := 2.1, windForce := 0.08, obstacleDensity := 0.35
    asteroidCount := 10, pickupRate := 0.65, enemyRate := 0.55, ufoRate := 0.12
    pickupScore := 1, enemyScoreMin := 6, enemyScoreMax := 10, boss := none }

def level8 : LevelConfig :=
  { id := 8, name := "Orbit Debris Field", environment := Environment.orbit
    autoForward := true, baseSpeed := 3.4, maxSpeed := 14, accelPerSec := 2.8
    boostMultiplier := 2.1, windForce := 0.06, obstacleDensity := 0.2
    asteroidCount := 60, pickupRate := 0.7, enemyRate := 0.62, ufoRate := 0.18
    pickupScore := 1, enemyScoreMin := 6, enemyScoreMax := 10, boss := none }

def level9 : LevelConfig :=
  { id := 9, name := "Alien Zone", environment := Environment.alien
    autoForward := true, baseSpeed := 3.8, maxSpeed := 15, accelPerSec := 3
    boostMultiplier := 2.2, windForce := 0.04, obstacleDensity := 0.18
    asteroidCount := 80, pickupRate := 0.75, enemyRate := 0.78, ufoRate := 0.35
    pickupScore := 1, enemyScoreMin := 7, enemyScoreMax := 10, boss := none }

def level10 : LevelConfig :=
  { id := 10, name := "Space War (Boss)", environment := Environment.war
    autoForward := true, baseSpeed := 4.2, maxSpeed := 16, accelPerSec := 3.2
    boostMultiplier := 2.3, windForce := 0.03, obstacleDensity := 0.15
    asteroidCount := 100, pickupRate := 0.8, enemyRate := 0.95, ufoRate := 0.5
    pickupScore := 1, enemyScoreMin := 8, enemyScoreMax := 12
    boss := some { hp := 220, spawnAtScore := 90, ufoSupportRate := 0.65 } }

def LEVELS : List LevelConfig :=
  [level1, level2, level3, level4, level5, level6, level7, level8, level9, level10]

def DEFAULT_LEVEL_ID : ℕ := 8

/-- A JavaScript `number` argument: a finite (exact) value, NaN, or an
infinity. -/
inductive JSNumber
  | num (q : ℚ)
  | nan
  | posInf
  | negInf
deriving DecidableEq

/-- Embeds `Number.isFinite`. -/
def JSNumber.isFinite : JSNumber → Bool
  | num _ => true
  | _ => false

/-- Embeds `isValidLevelId(levelId)`: an integer between 1 and `LEVELS.length`. -/
def isValidLevelId : JSNumber → Bool
  | JSNumber.num q => decide (q.den = 1) && decide (1 ≤ q) && decide (q ≤ (LEVELS.length : ℚ))
  | _ => false

/-- The fallback picked by `getLevelConfig`:
`LEVELS[Math.max(0, Math.min(LEVELS.length - 1, DEFAULT_LEVEL_ID - 1))]`.
(The `getD` default is never reached: the index is clamped into range.) -/
def fallbackLevel : LevelConfig :=
  LEVELS.getD (max 0 (min (LEVELS.length - 1) (DEFAULT_LEVEL_ID - 1))) level1

/-- Embeds `getLevelConfig(levelId)`: non-finite numbers fall back; otherwise the
first table entry whose `id` strictly equals the argument, with the fallback
when no entry matches. -/
def getLevelConfig (levelId : JSNumber) : LevelConfig :=
  match levelId with
  | JSNumber.num q => (LEVELS.find? fun l => decide (l.id = q)).getD fallbackLevel
  | _ => fallbackLevel

/-- Whether a table entry's `id` strictly equals (`===`) the given number
(NaN and the infinities equal no id). -/
def levelMatches (levelId : JSNumber) (l : LevelConfig) : Bool :=
  match levelId with
  | JSNumber.num q => decide (l.id = q)
  | _ => false

/-! ## Game.updateSpeed (math.ts lines 480-505) -/

structure SpeedState where
  speedBase : ℝ
  speed : ℝ

/-- Embeds `Game.updateSpeed(dt, boost, stopActive)` acting on the
`(speedBase, speed)` pair, parameterized by the active level. -/
noncomputable def Game.updateSpeed (lvl : LevelConfig) (dt boost : ℝ)
    (stopActive : Bool) (st : SpeedState) : SpeedState :=
  let baseSpeed : ℝ := max 0 (lvl.baseSpeed : ℝ)
  let maxSpeed : ℝ := max baseSpeed (lvl.maxSpeed : ℝ)
  let accel : ℝ := max 0 (lvl.accelPerSec : ℝ)
  let boostMult : ℝ := max 1 (lvl.boostMultiplier : ℝ)
  if stopActive then ⟨baseSpeed, 0⟩
  else if lvl.autoForward then
    let speedBase' := clamp (st.speedBase + accel * dt) baseSpeed maxSpeed
    let target := clamp (speedBase' * (1 + boost * (boostMult - 1))) 0 maxSpeed
    ⟨speedBase', lerp st.speed target (1 - Real.exp (-8 * dt))⟩
  else
    let target := clamp (baseSpeed + boost * (maxSpeed - baseSpeed)) 0 maxSpeed
    ⟨baseSpeed, lerp st.speed target (1 - Real.exp (-10 * dt))⟩

/-! ## The gun-burst state machine (math.ts: queueGunBurst and the gun
section of Game.frame, lines 591-596 and 942-955)

The laser pool is projected to its per-slot `active` flags (the gun logic
reads and writes nothing else of a slot when firing): `activateFirst` is the
frame's `spawnLaser` closure, which activates the first inactive slot and
reports failure when every slot is active.  `gunRun` folds the gun section
of `Game.frame` over a list of frame timestamps with the held-fire flag
down (a pure burst, no `input.fireGuns`), returning the time stamps at
which a laser was spawned. -/

structure GunState where
  remaining : ℕ
  nextMs : ℚ
  lastGunFireMs : ℚ

def gunInit : GunState := ⟨0, 0, 0⟩

/-- Embeds `Game.queueGunBurst(count)`: no-op unless running; adds
`max(1, floor(count))` to the pending counter, capped at 25, and pulls the
next-shot deadline up to `now` when it is in the past. -/
def Game.queueGunBurst (running : Bool) (now count : ℚ) (g : GunState) : GunState :=
  if running then
    { g with
        remaining := min 25 (g.remaining + (max 1 ⌊count⌋).toNat)
        nextMs := if g.nextMs < now then now else g.nextMs }
  else g

/-- Number of inactive slots of the (projected) laser pool. -/
def freeSlots (pool : List Bool) : ℕ := pool.countP (fun b => !b)

/-- The `spawnLaser` closure of `Game.frame`: activate the first inactive
slot, or report failure when the pool is saturated. -/
def activateFirst : List Bool → Option (List Bool)
  | [] => none
  | b :: rest =>
    if b then (activateFirst rest).map (fun r => b :: r)
    else some (true :: rest)

/-- One frame of the gun section of `Game.frame`: a pending burst shot fires
once its deadline has passed (advancing the deadline by the 70ms burst
interval), a failed spawn drops the whole rest of the burst; otherwise a
held fire key fires at the 95ms hold interval. -/
def gunFrame (g : GunState) (pool : List Bool) (now : ℚ) (fireGunsHeld : Bool) :
    GunState × List Bool × Bool :=
  if 0 < g.remaining ∧ g.nextMs ≤ now then
    match activateFirst pool with
    | some pool' => (⟨g.remaining - 1, g.nextMs + 70, now⟩, pool', true)
    | none => ({ g with remaining := 0 }, pool, false)
  else if fireGunsHeld ∧ 95 ≤ now - g.lastGunFireMs then
    match activateFirst pool with
    | some pool' => ({ g with lastGunFireMs := now }, pool', true)
    | none => (g, pool, false)
  else (g, pool, false)

/-- Fold `gunFrame` (with held fire up being false) over a list of frame
timestamps; the third component lists the timestamps at which a laser
was spawned. -/
def gunRun : GunState → List Bool → List ℚ → GunState × List Bool × List ℚ
  | g, pool, [] => (g, pool, [])
  | g, pool, t :: ts =>
    let step := gunFrame g pool t false
    let rest := gunRun step.1 step.2.1 ts
    (rest.1, rest.2.1, if step.2.2 then t :: rest.2.2 else rest.2.2)

/-- C2 as the spec states it: a burst queued at time `q` while running, over
any strictly increasing frame schedule with at least 5 frames past the end
of the 5-shot / 70ms schedule and at least 5 free pool slots, spawns exactly
5 lasers AND consecutive spawns are at least the 70ms sub-interval apart. -/
def claimC2Stated : Prop :=
  ∀ (q : ℚ) (pool : List Bool) (ts : List ℚ),
    0 ≤ q → List.Chain' (fun a b => a < b) ts → (∀ t ∈ ts, q ≤ t) →
    5 ≤ freeSlots pool → 5 ≤ ts.countP (fun t => decide (q + 280 ≤ t)) →
    ((gunRun (Game.queueGunBurst true q 5 gunInit) pool ts).2.2.length = 5 ∧
      List.Chain' (fun a b => 70 ≤ b - a)
        (gunRun (Game.queueGunBurst true q 5 gunInit) pool ts).2.2)

/-! ## Projectiles.ts -/

structure LaserShot where
  active : Bool
  ttl : ℝ
  pos : Vec3
  vel : Vec3

/-- Embeds `LaserShot.spawn(pos, vel, ttl)` (all fields are overwritten). -/
def LaserShot.spawn (pos vel : Vec3) (ttl : ℝ) : LaserShot :=
  { active := true, ttl := ttl, pos := pos, vel := vel }

structure MissileShot where
  active : Bool
  ttl : ℝ
  pos : Vec3
  vel : Vec3

/-- Embeds `MissileShot.spawn(pos, initialVel, ttl)` (all fields are overwritten). -/
def MissileShot.spawn (pos initialVel : Vec3) (ttl : ℝ) : MissileShot :=
  { active := true, ttl := ttl, pos := pos, vel := initialVel }

/-- Embeds `MissileShot.update(dt, targetPos, turnRate)`: inactive missiles are
inert; ttl runs down and expiry deactivates before any motion; with a
target farther than the `1e-6` guard the velocity is re-aimed by blending
the normalized heading toward the normalized target direction by
`clamp(turnRate*dt, 0, 1)`, re-normalizing, and rescaling by the previous
speed; finally the position advances by the (new) velocity. -/
noncomputable def MissileShot.update (m : MissileShot) (dt : ℝ)
    (targetPos : Option Vec3) (turnRate : ℝ) : MissileShot :=
  if m.active then
    if m.ttl - dt ≤ 0 then { m with ttl := m.ttl - dt, active := false }
    else
      let vel' :=
        match targetPos with
        | some tp =>
          let desired := tp.sub m.pos
          let len := desired.length
          if 1 / 1000000 < len then
            ((Vec3.vlerp (m.vel.normalize) (desired.smul (1 / len))
                (clamp (turnRate * dt) 0 1)).normalize).smul m.vel.length
          else m.vel
        | none => m.vel
      { m with ttl := m.ttl - dt, vel := vel', pos := m.pos.add (vel'.smul dt) }
  else m

/-- C4 as the spec states it: for every active missile with remaining ttl
and a target at any positive distance, one step re-aims the velocity to the
normalized blend rescaled to the previous speed, conserving the speed
magnitude; with no target, the velocity is unchanged. -/
def claimC4Stated : Prop :=
  ∀ (m : MissileShot) (dt turnRate : ℝ) (tp : Vec3),
    m.active = true → 0 < m.ttl - dt → 0 < (tp.sub m.pos).length →
    ((m.update dt (some tp) turnRate).vel
        = ((Vec3.vlerp (m.vel.normalize) ((tp.sub m.pos).normalize)
            (clamp (turnRate * dt) 0 1)).normalize).smul m.vel.length ∧
      (m.update dt (some tp) turnRate).vel.length = m.vel.length ∧
      (m.update dt none turnRate).vel = m.vel)

/-- The missile used to refute C4 as stated: heading +z at speed 2. -/
def missileAxisZ : MissileShot :=
  { active := true, ttl := 2, pos := Vec3.zero, vel := ⟨0, 0, 2⟩ }

/-- A target within the `1e-6` homing guard (distance `5e-7`). -/
noncomputable def targetInsideGuard : Vec3 := ⟨1 / 2000000, 0, 0⟩

/-- A target well outside the homing guard, straight ahead. -/
def targetAhead : Vec3 := ⟨0, 0, 10⟩

/-! ## World strategies (OrbitWorld.ts, EarthParkWorld) — reset and sizing -/

structure Asteroid where
  pos : Vec3
  rot : Vec3
  spin : Vec3
  scale : ℝ
  radius : ℝ

structure WorldPickup where
  pos : Vec3
  rot : Vec3
  spin : ℝ
  radius : ℝ

structure GroundTile where
  z : ℝ

structure Tree where
  pos : Vec3
  rotY : ℝ
  scale : ℝ
  radius : ℝ

structure OrbitWorldState where
  asteroids : List Asteroid
  pickups : List WorldPickup

structure ParkWorldState where
  tiles : List GroundTile
  trees : List Tree
  pickups : List WorldPickup

inductive WorldState
  | orbit (s : OrbitWorldState)
  | park (s : ParkWorldState)

/-- The per-variant `enemySpawnBounds` readonly field. -/
def WorldState.enemySpawnBounds : WorldState → EnemySpawnBounds
  | .orbit _ => ⟨12, 7, 110, 190⟩
  | .park _ => ⟨8, 9 / 2, 95, 165⟩

/-- The shape of a world's pools: variant tag and the sizes of its item
pools (asteroids/tiles, trees, pickups). -/
def WorldState.shape : WorldState → ℕ × ℕ × ℕ × ℕ
  | .orbit s => (0, s.asteroids.length, 0, s.pickups.length)
  | .park s => (1, s.tiles.length, s.trees.length, s.pickups.length)

/-- Thread the random stream through an in-place update of every list
element (the `for (const x of items)` re-randomization loops). -/
def mapRng {α : Type} (f : α → Rng → α × Rng) : List α → Rng → List α × Rng
  | [], r => ([], r)
  | a :: rest, r =>
    let p := f a r
    let q := mapRng f rest p.2
    (p.1 :: q.1, q.2)

/-- Embeds `randomLanePos(rangeX, rangeY)` from OrbitWorld.ts: up to 6 rejection
attempts biased away from the safe lane (|x| ≤ 3.4 and |y| ≤ 2.4), then a
fallback that shoves the position out of the lane with random signs. -/
def randomLanePosGo (rangeX rangeY : ℚ) : ℕ → Rng → (ℚ × ℚ) × Rng
  | 0, r =>
    let s1 := r.sample
    let xr := randRange (17 / 5) rangeX s1.2
    let s2 := xr.2.sample
    let yr := randRange (12 / 5) rangeY s2.2
    (((if s1.1 < 1 / 2 then -1 else 1) * xr.1,
      (if s2.1 < 1 / 2 then -1 else 1) * yr.1), yr.2)
  | n + 1, r =>
    let xr := randRange (-rangeX) rangeX r
    let yr := randRange (-rangeY) rangeY xr.2
    if 17 / 5 < |xr.1| ∨ 12 / 5 < |yr.1| then ((xr.1, yr.1), yr.2)
    else randomLanePosGo rangeX rangeY n yr.2

def randomLanePos (rangeX rangeY : ℚ) (r : Rng) : (ℚ × ℚ) × Rng :=
  randomLanePosGo rangeX rangeY 6 r

/-- One asteroid's re-randomization in `OrbitWorld.reset`. -/
noncomputable def resetAsteroid (a : Asteroid) (r : Rng) : Asteroid × Rng :=
  let p := randomLanePos 18 10 r
  let zr := randRange 70 220 p.2
  let sc := randRange (9 / 20) (29 / 20) zr.2
  let rx := sc.2.sample
  let ry := rx.2.sample
  let rz := ry.2.sample
  let sx := randRange (-(6 / 5)) (6 / 5) rz.2
  let sy := randRange (-(6 / 5)) (6 / 5) sx.2
  let sz := randRange (-(6 / 5)) (6 / 5) sy.2
  ({ a with
      pos := ⟨(p.1.1 : ℝ), (p.1.2 : ℝ), (zr.1 : ℝ)⟩
      scale := (sc.1 : ℝ)
      radius := (sc.1 : ℝ) * 0.82
      rot := ⟨(rx.1 : ℝ) * Real.pi, (ry.1 : ℝ) * Real.pi, (rz.1 : ℝ) * Real.pi⟩
      spin := ⟨(sx.1 : ℝ), (sy.1 : ℝ), (sz.1 : ℝ)⟩ }, sz.2)

/-- One pickup's re-randomization in `OrbitWorld.reset`. -/
noncomputable def resetOrbitPickup (p : WorldPickup) (r : Rng) : WorldPickup × Rng :=
  let xr := randRange (-10) 10 r
  let yr := randRange (-6) 6 xr.2
  let zr := randRange 70 220 yr.2
  let sp := randRange (4 / 5) 2 zr.2
  ({ p with
      pos := ⟨(xr.1 : ℝ), (yr.1 : ℝ), (zr.1 : ℝ)⟩
      rot := Vec3.zero
      spin := (sp.1 : ℝ) }, sp.2)

/-- Embeds `OrbitWorld.reset`: every asteroid and pickup re-randomized in place. -/
noncomputable def OrbitWorldState.reset (s : OrbitWorldState) (r : Rng) :
    OrbitWorldState × Rng :=
  let ar := mapRng resetAsteroid s.asteroids r
  let pr := mapRng resetOrbitPickup s.pickups ar.2
  (⟨ar.1, pr.1⟩, pr.2)

/-- One tree's re-randomization in `EarthParkWorld.reset` (the park's player
bounds are x ∈ [-7, 7], so trees spawn in x ∈ [-10, 10]). -/
noncomputable def resetTree (t : Tree) (r : Rng) : Tree × Rng :=
  let xr := randRange (-10) 10 r
  let zr := randRange 55 200 xr.2
  let ry := zr.2.sample
  let sc := randRange (17 / 20) (27 / 20) ry.2
  ({ t with
      pos := ⟨(xr.1 : ℝ), -6.5, (zr.1 : ℝ)⟩
      rotY := (ry.1 : ℝ) * (2 * Real.pi)
      scale := (sc.1 : ℝ)
      radius := 0.65 * (sc.1 : ℝ) }, sc.2)

/-- One pickup's re-randomization in `EarthParkWorld.reset`. -/
noncomputable def resetParkPickup (p : WorldPickup) (r : Rng) : WorldPickup × Rng :=
  let xr := randRange (-7) 7 r
  let yr := randRange (-(3 / 2)) (9 / 2) xr.2
  let zr := randRange 55 200 yr.2
  let sp := randRange (4 / 5) 2 zr.2
  ({ p with
      pos := ⟨(xr.1 : ℝ), (yr.1 : ℝ), (zr.1 : ℝ)⟩
      rot := Vec3.zero
      spin := (sp.1 : ℝ) }, sp.2)

/-- Embeds `EarthParkWorld.reset`: ground tiles snap back to their ring positions
(`i * TILE_LENGTH`), trees and pickups are re-randomized in place. -/
noncomputable def ParkWorldState.reset (s : ParkWorldState) (r : Rng) :
    ParkWorldState × Rng :=
  let tiles' := s.tiles.mapIdx fun i _ => GroundTile.mk ((i : ℝ) * 90)
  let tr := mapRng resetTree s.trees r
  let pr := mapRng resetParkPickup s.pickups tr.2
  (⟨tiles', tr.1, pr.1⟩, pr.2)

/-- Embeds `World.reset(playerPos)` dispatched on the active variant. -/
noncomputable def WorldState.reset : WorldState → Rng → WorldState × Rng
  | .orbit s, r => let p := s.reset r; (.orbit p.1, p.2)
  | .park s, r => let p := s.reset r; (.park p.1, p.2)

/-! ## Pool sizing (OrbitWorld.ts / EarthParkWorld / Game) -/

def computeAsteroidCount (lvl : LevelConfig) : ℕ :=
  (max 0 (min 220 (jsRound lvl.asteroidCount))).toNat

def computeOrbitPickupPoolSize (lvl : LevelConfig) : ℕ :=
  (max 6 (min 28 (jsRound (lvl.pickupRate * 16 + 4)))).toNat

def computeTreeCount (lvl : LevelConfig) : ℕ :=
  (max 12 (min 80 (jsRound (10 + clamp lvl.obstacleDensity 0 1 * 40)))).toNat

def computeParkPickupPoolSize (lvl : LevelConfig) : ℕ :=
  (max 6 (min 26 (jsRound (lvl.pickupRate * 14 + 4)))).toNat

def parkTreeCount (lvl : LevelConfig) (isIOS : Bool) : ℕ :=
  if isIOS then (jsRound ((computeTreeCount lvl : ℚ) * (41 / 50))).toNat
  else computeTreeCount lvl

def parkPickupCount (lvl : LevelConfig) (isIOS : Bool) : ℕ :=
  if isIOS then (jsRound ((computeParkPickupPoolSize lvl : ℚ) * (9 / 10))).toNat
  else computeParkPickupPoolSize lvl

/-- Embeds `Game.computeEnemyPoolSize`: `clamp(round(rate * 16), 0, 20)`, zero for a
non-positive rate. -/
def computeEnemyPoolSize (lvl : LevelConfig) : ℕ :=
  if lvl.enemyRate ≤ 0 then 0
  else (max 0 (min 20 (jsRound (lvl.enemyRate * 16)))).toNat

/-- Advance the random stream by `n` unused draws (randomness consumed by
code whose state is not part of the simulated pools). -/
def Rng.skip (r : Rng) (n : ℕ) : Rng := ⟨r.seq, r.idx + n⟩

/-- Build a list with `Array.from({length: n}, initializer)`: the
randomized initializer runs once per element in index order. -/
def buildRng {α : Type} (f : Rng → α × Rng) : ℕ → Rng → List α × Rng
  | 0, r => ([], r)
  | n + 1, r =>
    let p := f r
    let q := buildRng f n p.2
    (p.1 :: q.1, q.2)

/-- The number of `Math.random()` calls made by `createStarfield` in
`OrbitWorld.create`: 4 per star (radius, theta, phi, twinkle phase), for
6500 stars on iOS and 10000 otherwise.  The starfield is pure rendering and
holds no simulated pool state; only its sample consumption is embedded. -/
def starfieldDraws (isIOS : Bool) : ℕ := (if isIOS then 6500 else 10000) * 4

/-- One asteroid's initializer in `OrbitWorld.create`'s `Array.from`:
`pos = (0, 0, randRange(70, 220))`, a random Euler rotation (three draws
scaled by pi), a random spin vector, `scale = randRange(0.45, 1.45)` and a
placeholder radius of 1. -/
noncomputable def initAsteroid (r : Rng) : Asteroid × Rng :=
  let zr := randRange 70 220 r
  let rx := zr.2.sample
  let ry := rx.2.sample
  let rz := ry.2.sample
  let sx := randRange (-(6 / 5)) (6 / 5) rz.2
  let sy := randRange (-(6 / 5)) (6 / 5) sx.2
  let sz := randRange (-(6 / 5)) (6 / 5) sy.2
  let sc := randRange (9 / 20) (29 / 20) sz.2
  ({ pos := ⟨0, 0, (zr.1 : ℝ)⟩
     rot := ⟨(rx.1 : ℝ) * Real.pi, (ry.1 : ℝ) * Real.pi, (rz.1 : ℝ) * Real.pi⟩
     spin := ⟨(sx.1 : ℝ), (sy.1 : ℝ), (sz.1 : ℝ)⟩
     scale := (sc.1 : ℝ)
     radius := 1 }, sc.2)

/-- The second pass of `OrbitWorld.create` over the fresh asteroids: a
lane-biased x/y position and the real radius `scale * 0.82`. -/
noncomputable def laneAsteroid (a : Asteroid) (r : Rng) : Asteroid × Rng :=
  let p := randomLanePos 18 10 r
  ({ a with
      pos := ⟨(p.1.1 : ℝ), (p.1.2 : ℝ), a.pos.z⟩
      radius := a.scale * 0.82 }, p.2)

/-- One pickup's initializer in `OrbitWorld.create`'s `Array.from`. -/
noncomputable def initOrbitPickup (r : Rng) : WorldPickup × Rng :=
  let xr := randRange (-10) 10 r
  let yr := randRange (-6) 6 xr.2
  let zr := randRange 70 220 yr.2
  let sp := randRange (4 / 5) 2 zr.2
  ({ pos := ⟨(xr.1 : ℝ), (yr.1 : ℝ), (zr.1 : ℝ)⟩
     rot := Vec3.zero
     spin := (sp.1 : ℝ)
     radius := 0.55 }, sp.2)

/-- `OrbitWorld.create` (OrbitWorld.ts lines 164-231): the starfield is
built (consuming its random draws), then — when `computeAsteroidCount` is
positive — the asteroid pool is initialized and lane-biased in two passes,
the pickup pool is initialized, and finally `reset` re-randomizes
everything in place (`computeAsteroidCount = 0` leaves no asteroid pool,
embedded as the empty list). -/
noncomputable def OrbitWorldState.create (lvl : LevelConfig) (isIOS : Bool) (r : Rng) :
    OrbitWorldState × Rng :=
  let r0 := r.skip (starfieldDraws isIOS)
  let ac := computeAsteroidCount lvl
  let ar :=
    if 0 < ac then
      let ir := buildRng initAsteroid ac r0
      mapRng laneAsteroid ir.1 ir.2
    else ([], r0)
  let pr := buildRng initOrbitPickup (computeOrbitPickupPoolSize lvl) ar.2
  OrbitWorldState.reset ⟨ar.1, pr.1⟩ pr.2

/-- One tree's initializer in `EarthParkWorld.create`'s `Array.from`:
`pos = (0, GROUND_Y, randRange(55, 200))`, a random yaw, a random scale and
a placeholder radius of 0.8. -/
noncomputable def initTree (r : Rng) : Tree × Rng :=
  let zr := randRange 55 200 r
  let ry := zr.2.sample
  let sc := randRange (17 / 20) (27 / 20) ry.2
  ({ pos := ⟨0, -6.5, (zr.1 : ℝ)⟩
     rotY := (ry.1 : ℝ) * (2 * Real.pi)
     scale := (sc.1 : ℝ)
     radius := 0.8 }, sc.2)

/-- The second pass of `EarthParkWorld.create` over the fresh trees: a
random x inside the widened player bounds and the real radius
`0.65 * scale`. -/
noncomputable def placeTree (t : Tree) (r : Rng) : Tree × Rng :=
  let xr := randRange (-10) 10 r
  ({ t with
      pos := ⟨(xr.1 : ℝ), t.pos.y, t.pos.z⟩
      radius := 0.65 * t.scale }, xr.2)

/-- One pickup's initializer in `EarthParkWorld.create`'s `Array.from`. -/
noncomputable def initParkPickup (r : Rng) : WorldPickup × Rng :=
  let xr := randRange (-7) 7 r
  let yr := randRange (-(3 / 2)) (9 / 2) xr.2
  let zr := randRange 55 200 yr.2
  let sp := randRange (4 / 5) 2 zr.2
  ({ pos := ⟨(xr.1 : ℝ), (yr.1 : ℝ), (zr.1 : ℝ)⟩
     rot := Vec3.zero
     spin := (sp.1 : ℝ)
     radius := 0.55 }, sp.2)

/-- `EarthParkWorld.create` (EarthParkWorld lines 85-187): three ground
tiles on their ring positions, the tree pool initialized and placed in two
passes, the pickup pool initialized, and finally `reset` re-randomizes
everything in place. -/
noncomputable def ParkWorldState.create (lvl : LevelConfig) (isIOS : Bool) (r : Rng) :
    ParkWorldState × Rng :=
  let tiles := (List.range 3).map fun i => GroundTile.mk ((i : ℝ) * 90)
  let tr0 := buildRng initTree (parkTreeCount lvl isIOS) r
  let tr := mapRng placeTree tr0.1 tr0.2
  let pr := buildRng initParkPickup (parkPickupCount lvl isIOS) tr.2
  ParkWorldState.reset ⟨tiles, tr.1, pr.1⟩ pr.2

/-- The environment predicate of the world factory (LevelManager.ts, second
segment): orbit, upper-atmos, alien and war are space environments. -/
def isSpaceEnvironment : Environment → Bool
  | Environment.orbit => true
  | Environment.upperAtmos => true
  | Environment.alien => true
  | Environment.war => true
  | _ => false

/-- The world factory `createWorld(args)` (LevelManager.ts, second segment):
space environments get the orbital variant, every other environment the
ground variant; each variant's constructor-plus-`create()` builds its pools
from the level configuration. -/
noncomputable def createWorld (lvl : LevelConfig) (isIOS : Bool) (r : Rng) :
    WorldState × Rng :=
  if isSpaceEnvironment lvl.environment then
    let p := OrbitWorldState.create lvl isIOS r
    (WorldState.orbit p.1, p.2)
  else
    let p := ParkWorldState.create lvl isIOS r
    (WorldState.park p.1, p.2)

/-! ## The Game orchestrator state and its operations -/

structure Explosion where
  visible : Bool
  age : ℝ
  lifetime : ℝ
  startScale : ℝ

structure EnemySlot where
  enemy : Enemy
  deadUntilMs : ℚ

structure MissileSlot where
  shot : MissileShot
  meshVisible : Bool
  trailVisible : Bool

structure GameState where
  running : Bool
  score : ℤ
  speedBase : ℝ
  speed : ℝ
  pos : Vec3
  gunBurstRemaining : ℕ
  gunBurstNextMs : ℚ
  lastGunFireMs : ℚ
  level : LevelConfig
  world : Option WorldState
  enemies : List EnemySlot
  lasers : List LaserShot
  missiles : List MissileSlot
  explosions : List Explosion

inductive ResetReason
  | restart
  | hit

/-- The per-slot respawn performed by `Game.reset` (`slot.deadUntilMs = 0;
slot.enemy.spawn(bounds, this.pos.y)` — the player position has just been
zeroed, so `playerY = 0`). -/
def respawnSlot (bounds : EnemySpawnBounds) (s : EnemySlot) (r : Rng) :
    EnemySlot × Rng :=
  let p := s.enemy.spawn bounds 0 r
  (⟨p.1, 0⟩, p.2)

/-- Embeds `Game.reset(reason)` (math.ts lines 556-589): score back to 1, speed
state and position zeroed, gun burst state cleared, world pools
re-randomized in place, every enemy slot respawned, every laser and missile
deactivated, every explosion hidden and expired.  The only effect of
`reason` in the source is firing the hit-flash callback, which has no
simulation state. -/
noncomputable def Game.reset (g : GameState) (_reason : ResetReason) (r : Rng) :
    GameState × Rng :=
  let wr : Option WorldState × Rng :=
    match g.world with
    | some w => let p := w.reset r; (some p.1, p.2)
    | none => (none, r)
  let bounds :=
    match g.world with
    | some w => w.enemySpawnBounds
    | none => defaultSpawnBounds
  let er := mapRng (respawnSlot bounds) g.enemies wr.2
  ({ g with
      score := 1
      speedBase := max 0 (g.level.baseSpeed : ℝ)
      speed := 0
      pos := Vec3.zero
      gunBurstRemaining := 0
      gunBurstNextMs := 0
      lastGunFireMs := 0
      world := wr.1
      enemies := er.1
      lasers := g.lasers.map (fun l => { l with active := false })
      missiles := g.missiles.map (fun m => { m with shot := { m.shot with active := false } })
      explosions := g.explosions.map (fun e => { e with visible := false, age := e.lifetime }) },
    er.2)

/-- The laser pool walk of the frame's `spawnLaser` closure: activate the
first inactive slot with the new shot, or fail leaving the pool as is. -/
def spawnLaserPool : List LaserShot → Vec3 → Vec3 → ℝ → List LaserShot × Bool
  | [], _, _, _ => ([], false)
  | l :: rest, p, v, ttl =>
    if l.active then
      let q := spawnLaserPool rest p v ttl
      (l :: q.1, q.2)
    else (LaserShot.spawn p v ttl :: rest, true)

/-- The `spawnLaser` closure of `Game.frame` (lines 934-940): spawn from the
drone's muzzle at the laser speed; a saturated pool is a silent no-op. -/
noncomputable def Game.spawnLaser (g : GameState) : GameState × Bool :=
  let q := spawnLaserPool g.lasers ⟨g.pos.x, g.pos.y + 0.02, g.pos.z + 1.35⟩
    ⟨0, 0, 58⟩ 1.1
  ({ g with lasers := q.1 }, q.2)

/-- The missile pool walk of `Game.fireMissile`: spawn into the first
inactive slot (making its meshes visible), or drop the shot. -/
def fireMissilePool : List MissileSlot → Vec3 → Vec3 → List MissileSlot
  | [], _, _ => []
  | m :: rest, p, v =>
    if m.shot.active then m :: fireMissilePool rest p v
    else { shot := MissileShot.spawn p v 3.2, meshVisible := true, trailVisible := true } :: rest

/-- Embeds `Game.fireMissile` (lines 598-607): no-op unless running; finds the
first inactive missile slot and spawns into it; a saturated pool drops the
shot silently. -/
noncomputable def Game.fireMissile (g : GameState) : GameState :=
  if g.running then
    { g with
        missiles := fireMissilePool g.missiles
          ⟨g.pos.x, g.pos.y - 0.15, g.pos.z + 1.1⟩ ⟨0, 0, 26⟩ }
  else g

/-- Embeds `Game.createEnemiesForLevel`'s loop body: each slot rolls its kind
(ship with probability 0.65), constructs the enemy from the per-kind
configuration and spawns it at `playerY = 0`. -/
def buildEnemies (bounds : EnemySpawnBounds) : ℕ → ℕ → Rng → List EnemySlot × Rng
  | 0, _, r => ([], r)
  | n + 1, i, r =>
    let s := r.sample
    let kind := if s.1 < 13 / 20 then EnemyKind.ship else EnemyKind.spike
    let cfg := if s.1 < 13 / 20 then shipConfig else spikeConfig
    let e := enemyMk (i + 1) kind cfg
    let sp := e.spawn bounds 0 s.2
    let rest := buildEnemies bounds n (i + 1) sp.2
    (⟨sp.1, 0⟩ :: rest.1, rest.2)

/-- Embeds `Game.setLevel(levelId)` (lines 447-465): installs
`getLevelConfig(levelId)`, rebuilds the world and the enemy pool for it and
performs a `reset('reset')`. -/
noncomputable def Game.setLevel (g : GameState) (levelId : JSNumber) (isIOS : Bool)
    (r : Rng) : GameState × Rng :=
  let next := getLevelConfig levelId
  let wr := createWorld next isIOS r
  let er := buildEnemies wr.1.enemySpawnBounds (computeEnemyPoolSize next) 0 wr.2
  Game.reset { g with level := next, world := some wr.1, enemies := er.1 }
    ResetReason.restart er.2

/-! ## Input State / Input Router -/

structure FaceControls where
  calibrated : Bool
  strafeX : ℚ
  strafeY : ℚ
  boost : ℚ
  mouthOpen : ℚ
  fireBurst : Bool
  fireHold : Bool

inductive FlipAxis
  | x
  | z
deriving DecidableEq

structure FlipCommand where
  axis : FlipAxis
  dir : ℤ
deriving DecidableEq

inductive ControlMode
  | mouth
  | keyboard
deriving DecidableEq

structure InputState where
  mode : ControlMode
  moveX : ℚ
  moveY : ℚ
  boost : ℚ
  stop : Bool
  fireGuns : Bool
  fireGunsBurst : Bool
  fireMissile : Bool
  flip : Option FlipCommand
  hasCamera : Bool

structure Keys where
  left : Bool
  right : Bool
  up : Bool
  down : Bool
  boost : Bool
  fire : Bool
  stop : Bool

structure ManualNudge where
  x : ℚ
  y : ℚ
  untilMs : ℚ

structure InputRouterState where
  hasCamera : Bool
  keys : Keys
  manualNudge : Option ManualNudge
  stopHeld : Bool
  stopToggled : Bool
  queuedGunBurst : Bool
  queuedMissile : Bool
  queuedFlip : Option FlipCommand
  lastVoiceFireMs : ℚ
  lastVoiceMissileMs : ℚ
  lastVoiceStopMs : ℚ

/-- Embeds `InputRouter.update(nowMs)` (lines 153-200): merges face, nudge and
keyboard signals into a fresh Input State and consumes the one-frame
queued actions (`queuedGunBurst`, `queuedMissile`, `queuedFlip`). -/
def InputRouter.update (rt : InputRouterState) (face : FaceControls) (nowMs : ℚ) :
    InputRouterState × InputState :=
  let hasMouth := face.calibrated
  let published : InputState :=
    { mode := if hasMouth then ControlMode.mouth else ControlMode.keyboard
      moveX :=
        (let base : ℚ := if hasMouth then face.strafeX else 0
         let withNudge : ℚ :=
           match rt.manualNudge with
           | some m => if nowMs < m.untilMs then m.x else base
           | none => base
         let keyX : ℚ := (if rt.keys.right then 1 else 0) - (if rt.keys.left then 1 else 0)
         let keyY : ℚ := (if rt.keys.up then 1 else 0) - (if rt.keys.down then 1 else 0)
         if keyX ≠ 0 ∨ keyY ≠ 0 then clamp (withNudge + keyX) (-1) 1 else withNudge)
      moveY :=
        (let base : ℚ := if hasMouth then face.strafeY else 0
         let withNudge : ℚ :=
           match rt.manualNudge with
           | some m => if nowMs < m.untilMs then m.y else base
           | none => base
         let keyX : ℚ := (if rt.keys.right then 1 else 0) - (if rt.keys.left then 1 else 0)
         let keyY : ℚ := (if rt.keys.up then 1 else 0) - (if rt.keys.down then 1 else 0)
         if keyX ≠ 0 ∨ keyY ≠ 0 then clamp (withNudge + keyY) (-1) 1 else withNudge)
      boost := clamp ((if hasMouth then face.boost else 0) +
        (if rt.keys.boost then 1 else 0)) 0 1
      stop := rt.stopHeld || rt.stopToggled || rt.keys.stop
      fireGuns := (hasMouth && face.fireHold) || rt.keys.fire
      fireGunsBurst := (hasMouth && face.fireBurst) || rt.queuedGunBurst
      fireMissile := rt.queuedMissile
      flip := rt.queuedFlip
      hasCamera := rt.hasCamera || hasMouth }
  ({ rt with
      manualNudge :=
        match rt.manualNudge with
        | some m => if nowMs < m.untilMs then some m else none
        | none => none
      queuedGunBurst := false
      queuedMissile := false
      queuedFlip := none }, published)

/-! ## Concrete states used to instantiate theorems -/

/-- A game state whose single laser slot and single missile slot are all
active (both pools saturated). -/
def gameAllActive : GameState :=
  { running := true
    score := 1
    speedBase := 0
    speed := 0
    pos := Vec3.zero
    gunBurstRemaining := 0
    gunBurstNextMs := 0
    lastGunFireMs := 0
    level := level8
    world := some (WorldState.orbit ⟨[], []⟩)
    enemies := []
    lasers := [{ active := true, ttl := 1, pos := Vec3.zero, vel := Vec3.zero }]
    missiles := [{ shot := { active := true, ttl := 1, pos := Vec3.zero, vel := Vec3.zero },
                   meshVisible := true, trailVisible := true }]
    explosions := [] }

/-- A router state with all three one-shot requests queued. -/
def routerQueued : InputRouterState :=
  { hasCamera := false
    keys := { left := false, right := false, up := false, down := false,
              boost := false, fire := false, stop := false }
    manualNudge := none
    stopHeld := false
    stopToggled := false
    queuedGunBurst := true
    queuedMissile := true
    queuedFlip := some { axis := FlipAxis.z, dir := 1 }
    lastVoiceFireMs := 0
    lastVoiceMissileMs := 0
    lastVoiceStopMs := 0 }

/-- An idle, uncalibrated face-tracking sample. -/
def faceIdle : FaceControls :=
  { calibrated := false, strafeX := 0, strafeY := 0, boost := 0, mouthOpen := 0,
    fireBurst := false, fireHold := false }

/-! # Theorems -/

/-! ## Vec3 lemmas -/

theorem Vec3.length_nonneg (v : Vec3) : 0 ≤ v.length :=
  Real.sqrt_nonneg _

theorem Vec3.length_eq_zero_iff (v : Vec3) : v.length = 0 ↔ v = Vec3.zero := by
  unfold Vec3.length
  constructor
  · intro h
    have hsum : v.x * v.x + v.y * v.y + v.z * v.z = 0 := by
      have hx := Real.sqrt_eq_zero'.mp h
      nlinarith [sq_nonneg v.x, sq_nonneg v.y, sq_nonneg v.z]
    have hx : v.x = 0 := by nlinarith [sq_nonneg v.x, sq_nonneg v.y, sq_nonneg v.z]
    have hy : v.y = 0 := by nlinarith [sq_nonneg v.x, sq_nonneg v.y, sq_nonneg v.z]
    have hz : v.z = 0 := by nlinarith [sq_nonneg v.x, sq_nonneg v.y, sq_nonneg v.z]
    cases v
    simp_all [Vec3.zero]
  · intro h
    subst h
    simp [Vec3.zero, Real.sqrt_eq_zero']

theorem Vec3.length_smul (v : Vec3) (c : ℝ) : (v.smul c).length = |c| * v.length := by
  unfold Vec3.length Vec3.smul
  have h : v.x * c * (v.x * c) + v.y * c * (v.y * c) + v.z * c * (v.z * c)
      = (c * c) * (v.x * v.x + v.y * v.y + v.z * v.z) := by ring
  rw [h, Real.sqrt_mul (mul_self_nonneg c), Real.sqrt_mul_self_eq_abs]

theorem Vec3.normalize_of_ne_zero {v : Vec3} (h : v ≠ Vec3.zero) :
    v.normalize = v.smul (1 / v.length) := by
  unfold Vec3.normalize
  rw [if_neg (fun h0 => h ((Vec3.length_eq_zero_iff v).mp h0))]

theorem Vec3.length_normalize {v : Vec3} (h : v ≠ Vec3.zero) :
    v.normalize.length = 1 := by
  have hlen : v.length ≠ 0 := fun h0 => h ((Vec3.length_eq_zero_iff v).mp h0)
  have hpos : 0 < v.length := lt_of_le_of_ne (Vec3.length_nonneg v) (Ne.symm hlen)
  rw [Vec3.normalize_of_ne_zero h, Vec3.length_smul, abs_of_pos (by positivity)]
  field_simp

/-! ## C5: Enemy.takeDamage -/

theorem floor_half_q : (⌊(1 / 2 : ℚ)⌋ : ℤ) = 0 := by
  rw [Int.floor_eq_zero_iff]
  constructor <;> norm_num

theorem enemyFull3_takeDamage_half :
    (enemyFull3.takeDamage (1 / 2)).hp = 2 := by
  simp only [Enemy.takeDamage, enemyFull3, floor_half_q]
  norm_num [clamp]

/-- C5 is false as stated: damaging a full-health enemy (hp = maxHp = 3) by
`amount = 1/2` leaves hp = 2 in the code (it subtracts
`max(1, floor(amount)) = 1`), while the claim's `floor(amount) = 0` would
leave hp = 3. -/
theorem takeDamage_floor_claim_false : ¬ claimC5Stated := by
  intro h
  have h1 := ((h enemyFull3 (1 / 2)).1 rfl).1
  rw [enemyFull3_takeDamage_half, floor_half_q] at h1
  norm_num [clamp, enemyFull3] at h1

/-- C5 (amended): for a living enemy with a well-formed `maxHp ≥ 1`,
`takeDamage(amount)` subtracts `max(1, floor(amount))` (not `floor(amount)`)
from hp, clamps hp to `[0, maxHp]`, and flips `alive` to false exactly when
the clamped hp reaches 0; on an already-dead enemy it changes nothing. -/
theorem takeDamage_subtracts_at_least_one (e d : Enemy) (amount : ℚ)
    (h1 : e.alive = true) (h2 : 1 ≤ e.maxHp) (h3 : d.alive = false) :
    (e.takeDamage amount).hp = clamp (e.hp - ((max 1 ⌊amount⌋ : ℤ) : ℚ)) 0 (e.maxHp : ℚ) ∧
    0 ≤ (e.takeDamage amount).hp ∧
    (e.takeDamage amount).hp ≤ (e.maxHp : ℚ) ∧
    ((e.takeDamage amount).alive = false ↔ (e.takeDamage amount).hp = 0) ∧
    d.takeDamage amount = d := by
  have hmax : (0 : ℚ) ≤ (e.maxHp : ℚ) := by exact_mod_cast le_trans zero_le_one h2
  unfold Enemy.takeDamage
  rw [h1, h3]
  simp only [if_true, if_false]
  set hp' := clamp (e.hp - ((max 1 ⌊amount⌋ : ℤ) : ℚ)) 0 (e.maxHp : ℚ) with hhp
  have hlo : 0 ≤ hp' := le_max_left _ _
  have hhi : hp' ≤ (e.maxHp : ℚ) := max_le hmax (min_le_left _ _)
  by_cases hz : hp' ≤ 0
  · have hz0 : hp' = 0 := le_antisymm hz hlo
    rw [if_pos hz]
    refine ⟨rfl, hlo, hhi, ?_, rfl⟩
    simp [hz0]
  · rw [if_neg hz]
    refine ⟨rfl, hlo, hhi, ?_, rfl⟩
    constructor
    · intro hcontra
      exact absurd hcontra (by simp [h1])
    · intro h0
      exact absurd (h0 ▸ hz) (by simp)

/-- Witness for the amended C5 at a concrete input: a full 3-hp enemy hit for
2 damage, and a dead enemy hit for 2 damage. -/
theorem takeDamage_subtracts_at_least_one_witness :
    (enemyFull3.takeDamage 2).hp
        = clamp (enemyFull3.hp - ((max 1 ⌊(2 : ℚ)⌋ : ℤ) : ℚ)) 0 (enemyFull3.maxHp : ℚ) ∧
    0 ≤ (enemyFull3.takeDamage 2).hp ∧
    (enemyFull3.takeDamage 2).hp ≤ (enemyFull3.maxHp : ℚ) ∧
    ((enemyFull3.takeDamage 2).alive = false ↔ (enemyFull3.takeDamage 2).hp = 0) ∧
    enemyDead.takeDamage 2 = enemyDead :=
  takeDamage_subtracts_at_least_one enemyFull3 enemyDead 2 rfl (by decide) rfl

/-! ## C6: the Enemy invariant -/

/-- C6: construction establishes the enemy invariant, and `spawn`, `update`
and `takeDamage` each preserve it: hp stays in `[0, maxHp]` and the entity
is alive exactly while hp is positive. -/
theorem enemy_invariant_preserved (e : Enemy) (idn : ℕ) (k : EnemyKind)
    (cfg : EnemyConfig) (b : EnemySpawnBounds) (py : ℝ) (r : Rng)
    (dt ws tms : ℝ) (pp : Vec3) (amount : ℚ)
    (h : EnemyInv e) :
    EnemyInv (enemyMk idn k cfg) ∧
    EnemyInv (e.spawn b py r).1 ∧
    EnemyInv (e.update dt ws pp tms) ∧
    EnemyInv (e.takeDamage amount) := by
  obtain ⟨hm, hlo, hhi, hiff⟩ := h
  refine ⟨?_, ?_, ?_, ?_⟩
  · -- construction
    have h1 : (1 : ℤ) ≤ max 1 ⌊cfg.hp⌋ := le_max_left _ _
    simp only [EnemyInv, enemyMk, true_iff]
    refine ⟨h1, ?_, le_refl _, ?_⟩
    · exact_mod_cast le_trans zero_le_one h1
    · exact_mod_cast lt_of_lt_of_le zero_lt_one h1
  · -- spawn
    simp only [EnemyInv, Enemy.spawn, true_iff]
    refine ⟨hm, ?_, le_refl _, ?_⟩
    · exact_mod_cast le_trans zero_le_one hm
    · exact_mod_cast lt_of_lt_of_le zero_lt_one hm
  · -- update: hp / alive / maxHp untouched in both branches
    unfold Enemy.update
    by_cases ha : e.alive
    · rw [if_pos ha]
      exact ⟨hm, hlo, hhi, hiff⟩
    · rw [if_neg ha]
      exact ⟨hm, hlo, hhi, hiff⟩
  · -- takeDamage
    unfold Enemy.takeDamage
    by_cases ha : e.alive
    · rw [if_pos ha]
      have hmax : (0 : ℚ) ≤ (e.maxHp : ℚ) := le_trans hlo hhi
      set hp' := clamp (e.hp - ((max 1 ⌊amount⌋ : ℤ) : ℚ)) 0 (e.maxHp : ℚ) with hhp
      have hlo' : 0 ≤ hp' := le_max_left _ _
      have hhi' : hp' ≤ (e.maxHp : ℚ) := max_le hmax (min_le_left _ _)
      by_cases hz : hp' ≤ 0
      · rw [if_pos hz]
        have hz0 : hp' = 0 := le_antisymm hz hlo'
        exact ⟨hm, hlo', hhi', by simp [hz0]⟩
      · rw [if_neg hz]
        refine ⟨hm, hlo', hhi', ?_⟩
        have : 0 < hp' := lt_of_le_of_ne hlo' (fun h0 => hz (le_of_eq h0.symm))
        simp [ha, this]
    · rw [if_neg ha]
      exact ⟨hm, hlo, hhi, hiff⟩

/-- Witness for C6 at concrete inputs. -/
theorem enemy_invariant_preserved_witness :
    EnemyInv (enemyMk 1 EnemyKind.ship shipConfig) ∧
    EnemyInv (enemyMid.spawn defaultSpawnBounds 0 rngZero).1 ∧
    EnemyInv (enemyMid.update 0 0 Vec3.zero 0) ∧
    EnemyInv (enemyMid.takeDamage 1) :=
  enemy_invariant_preserved enemyMid 1 EnemyKind.ship shipConfig
    defaultSpawnBounds 0 rngZero 0 0 0 Vec3.zero 1
    ⟨by decide, by norm_num [enemyMid], by norm_num [enemyMid], by norm_num [enemyMid]⟩

/-! ## C7: spawn / takeDamage / spawn round-trip -/

/-- C7: spawn, then full-maxHp damage, then spawn again: the first damage
kills the enemy exactly, and the second spawn restores it alive at full hp. -/
theorem enemy_spawn_damage_roundtrip (e : Enemy) (b b2 : EnemySpawnBounds)
    (py py2 : ℝ) (r r2 : Rng) (h : 1 ≤ e.maxHp) :
    ((e.spawn b py r).1.takeDamage (((e.spawn b py r).1.maxHp : ℚ))).alive = false ∧
    ((((e.spawn b py r).1.takeDamage (((e.spawn b py r).1.maxHp : ℚ))).spawn b2 py2 r2).1.alive
      = true) ∧
    ((((e.spawn b py r).1.takeDamage (((e.spawn b py r).1.maxHp : ℚ))).spawn b2 py2 r2).1.hp
      = (e.maxHp : ℚ)) := by
  have hspawn_max : (e.spawn b py r).1.maxHp = e.maxHp := by simp [Enemy.spawn]
  have hspawn_hp : (e.spawn b py r).1.hp = (e.maxHp : ℚ) := by simp [Enemy.spawn]
  have hspawn_alive : (e.spawn b py r).1.alive = true := by simp [Enemy.spawn]
  have hfloor : ⌊((e.maxHp : ℚ))⌋ = e.maxHp := Int.floor_intCast e.maxHp
  have hdmg : max 1 ⌊((e.spawn b py r).1.maxHp : ℚ)⌋ = e.maxHp := by
    rw [hspawn_max, hfloor]
    exact max_eq_right h
  have hclamp : clamp ((e.spawn b py r).1.hp
      - ((max 1 ⌊((e.spawn b py r).1.maxHp : ℚ)⌋ : ℤ) : ℚ))
      0 ((e.spawn b py r).1.maxHp : ℚ) = 0 := by
    rw [hdmg, hspawn_hp, hspawn_max, sub_self]
    have hmax : (0 : ℚ) ≤ (e.maxHp : ℚ) := by exact_mod_cast le_trans zero_le_one h
    simp [clamp, min_eq_right hmax]
  have hdead : ((e.spawn b py r).1.takeDamage (((e.spawn b py r).1.maxHp : ℚ))).alive
      = false := by
    unfold Enemy.takeDamage
    rw [hspawn_alive, if_pos rfl, hclamp, if_pos (le_refl 0)]
  have hdead_max : ((e.spawn b py r).1.takeDamage (((e.spawn b py r).1.maxHp : ℚ))).maxHp
      = e.maxHp := by
    unfold Enemy.takeDamage
    rw [hspawn_alive, if_pos rfl, hclamp, if_pos (le_refl 0)]
    exact hspawn_max
  refine ⟨hdead, by simp [Enemy.spawn], ?_⟩
  have hlast : ∀ d : Enemy, (d.spawn b2 py2 r2).1.hp = (d.maxHp : ℚ) := fun d => by
    simp [Enemy.spawn]
  rw [hlast, hdead_max]

/-- Witness for C7 at a concrete enemy. -/
theorem enemy_spawn_damage_roundtrip_witness :
    ((enemyMid.spawn defaultSpawnBounds 0 rngZero).1.takeDamage
        (((enemyMid.spawn defaultSpawnBounds 0 rngZero).1.maxHp : ℚ))).alive = false ∧
    ((((enemyMid.spawn defaultSpawnBounds 0 rngZero).1.takeDamage
        (((enemyMid.spawn defaultSpawnBounds 0 rngZero).1.maxHp : ℚ))).spawn
          defaultSpawnBounds 0 rngZero).1.alive = true) ∧
    ((((enemyMid.spawn defaultSpawnBounds 0 rngZero).1.takeDamage
        (((enemyMid.spawn defaultSpawnBounds 0 rngZero).1.maxHp : ℚ))).spawn
          defaultSpawnBounds 0 rngZero).1.hp = (enemyMid.maxHp : ℚ)) :=
  enemy_spawn_damage_roundtrip enemyMid defaultSpawnBounds defaultSpawnBounds
    0 0 rngZero rngZero (by decide)

/-! ## C10: getLevelConfig is total and always lands in the table -/

theorem fallbackLevel_eq : fallbackLevel = level8 := by rfl

theorem fallbackLevel_mem : fallbackLevel ∈ LEVELS := by
  rw [fallbackLevel_eq]
  simp [LEVELS]

theorem Game.reset_level (g : GameState) (reason : ResetReason) (r : Rng) :
    (Game.reset g reason r).1.level = g.level := by
  cases hw : g.world <;> simp [Game.reset, hw]

/-- C10: `getLevelConfig` is total over every JS number (NaN, infinities,
non-integers, out-of-range values included), always returns a member of the
10-entry table, returns the default (id 8) entry whenever no entry's id
matches, and consequently `Game.setLevel` always installs a valid level
configuration. -/
theorem getLevelConfig_total_valid (x : JSNumber) (g : GameState) (isIOS : Bool)
    (r : Rng) :
    getLevelConfig x ∈ LEVELS ∧
    getLevelConfig x
      = (if LEVELS.any (levelMatches x) then getLevelConfig x else fallbackLevel) ∧
    fallbackLevel.id = 8 ∧
    (Game.setLevel g x isIOS r).1.level = getLevelConfig x ∧
    (Game.setLevel g x isIOS r).1.level ∈ LEVELS := by
  have hmem : getLevelConfig x ∈ LEVELS := by
    cases x with
    | num q =>
      show (LEVELS.find? fun l => decide (l.id = q)).getD fallbackLevel ∈ LEVELS
      cases hfind : LEVELS.find? fun l => decide (l.id = q) with
      | none => exact fallbackLevel_mem
      | some l => exact List.mem_of_find?_eq_some hfind
    | nan => exact fallbackLevel_mem
    | posInf => exact fallbackLevel_mem
    | negInf => exact fallbackLevel_mem
  have hdef : getLevelConfig x
      = (if LEVELS.any (levelMatches x) then getLevelConfig x else fallbackLevel) := by
    cases x with
    | num q =>
      by_cases hany : LEVELS.any (levelMatches (JSNumber.num q)) = true
      · rw [if_pos hany]
      · rw [if_neg hany]
        have hfind : (LEVELS.find? fun l => decide (l.id = q)) = none := by
          rw [List.find?_eq_none]
          intro l hl
          have := (List.any_eq_true.not.mp hany)
          push_neg at this
          have hfalse := this l hl
          simpa [levelMatches] using hfalse
        show (LEVELS.find? fun l => decide (l.id = q)).getD fallbackLevel = fallbackLevel
        rw [hfind]
        rfl
    | nan => rw [if_neg (by decide)]; rfl
    | posInf => rw [if_neg (by decide)]; rfl
    | negInf => rw [if_neg (by decide)]; rfl
  have hlevel : (Game.setLevel g x isIOS r).1.level = getLevelConfig x := by
    unfold Game.setLevel
    rw [Game.reset_level]
  exact ⟨hmem, hdef, by simp [fallbackLevel_eq, level8], hlevel, hlevel ▸ hmem⟩

/-! ## C1: updateSpeed keeps speed within [0, maxSpeed] -/

theorem clamp_mem {α : Type} [LinearOrder α] (v : α) {lo hi : α} (h : lo ≤ hi) :
    lo ≤ clamp v lo hi ∧ clamp v lo hi ≤ hi :=
  ⟨le_max_left _ _, max_le h (min_le_left _ _)⟩

theorem lerp_mem {lo hi a b t : ℝ} (ha1 : lo ≤ a) (ha2 : a ≤ hi) (hb1 : lo ≤ b)
    (hb2 : b ≤ hi) (ht0 : 0 ≤ t) (ht1 : t ≤ 1) :
    lo ≤ lerp a b t ∧ lerp a b t ≤ hi := by
  unfold lerp
  constructor <;> nlinarith

theorem exp_damp_mem {c dt : ℝ} (hc : 0 < c) (hdt : 0 ≤ dt) :
    0 ≤ 1 - Real.exp (-c * dt) ∧ 1 - Real.exp (-c * dt) ≤ 1 := by
  constructor
  · have h1 : Real.exp (-c * dt) ≤ Real.exp 0 := Real.exp_le_exp.mpr (by nlinarith)
    rw [Real.exp_zero] at h1
    linarith
  · have := Real.exp_pos (-c * dt)
    linarith

theorem updateSpeed_mem_of_le (lvl : LevelConfig) (dt boost : ℝ) (stopActive : Bool)
    (st : SpeedState) (hb0 : (0 : ℚ) ≤ lvl.baseSpeed) (hbm : lvl.baseSpeed ≤ lvl.maxSpeed)
    (hdt : 0 ≤ dt) (hs0 : 0 ≤ st.speed) (hs1 : st.speed ≤ (lvl.maxSpeed : ℝ)) :
    0 ≤ (Game.updateSpeed lvl dt boost stopActive st).speed ∧
    (Game.updateSpeed lvl dt boost stopActive st).speed ≤ (lvl.maxSpeed : ℝ) := by
  have hbR : (0 : ℝ) ≤ (lvl.baseSpeed : ℝ) := by exact_mod_cast hb0
  have hbmR : ((lvl.baseSpeed : ℝ)) ≤ (lvl.maxSpeed : ℝ) := by exact_mod_cast hbm
  have hmR : (0 : ℝ) ≤ (lvl.maxSpeed : ℝ) := le_trans hbR hbmR
  have hBase : max 0 (lvl.baseSpeed : ℝ) = (lvl.baseSpeed : ℝ) := max_eq_right hbR
  have hMax : max (lvl.baseSpeed : ℝ) (lvl.maxSpeed : ℝ) = (lvl.maxSpeed : ℝ) :=
    max_eq_right hbmR
  simp only [Game.updateSpeed, hBase, hMax]
  split_ifs with h1 h2
  · exact ⟨le_refl _, hmR⟩
  · have ht := exp_damp_mem (c := 8) (by norm_num) hdt
    have htgt := clamp_mem
      (clamp (st.speedBase + max 0 (lvl.accelPerSec : ℝ) * dt) (lvl.baseSpeed : ℝ)
          (lvl.maxSpeed : ℝ) * (1 + boost * (max 1 (lvl.boostMultiplier : ℝ) - 1)))
      hmR
    exact lerp_mem hs0 hs1 htgt.1 htgt.2 ht.1 ht.2
  · have ht := exp_damp_mem (c := 10) (by norm_num) hdt
    have htgt := clamp_mem
      ((lvl.baseSpeed : ℝ) + boost * ((lvl.maxSpeed : ℝ) - (lvl.baseSpeed : ℝ))) hmR
    exact lerp_mem hs0 hs1 htgt.1 htgt.2 ht.1 ht.2

/-- C1: for every level of the table, every `dt ≥ 0`, every boost value and
every stop flag, `updateSpeed` keeps the forward speed within
`[0, maxSpeed]` whenever it was within that interval before the call
(whatever the base-speed accumulator holds). -/
theorem updateSpeed_bounded (lvl : LevelConfig) (dt boost : ℝ) (stopActive : Bool)
    (st : SpeedState) (hmem : lvl ∈ LEVELS) (hdt : 0 ≤ dt) (hs0 : 0 ≤ st.speed)
    (hs1 : st.speed ≤ (lvl.maxSpeed : ℝ)) :
    0 ≤ (Game.updateSpeed lvl dt boost stopActive st).speed ∧
    (Game.updateSpeed lvl dt boost stopActive st).speed ≤ (lvl.maxSpeed : ℝ) := by
  have hkey : (0 : ℚ) ≤ lvl.baseSpeed ∧ lvl.baseSpeed ≤ lvl.maxSpeed := by
    simp only [LEVELS] at hmem
    fin_cases hmem <;>
      exact ⟨by norm_num [level1, level2, level3, level4, level5, level6, level7,
        level8, level9, level10],
        by norm_num [level1, level2, level3, level4, level5, level6, level7,
          level8, level9, level10]⟩
  exact updateSpeed_mem_of_le lvl dt boost stopActive st hkey.1 hkey.2 hdt hs0 hs1

/-- Witness for C1: level 8, `dt = 0`, no boost, stop engaged, speed 0. -/
theorem updateSpeed_bounded_witness :
    0 ≤ (Game.updateSpeed level8 0 0 true ⟨0, 0⟩).speed ∧
    (Game.updateSpeed level8 0 0 true ⟨0, 0⟩).speed ≤ (level8.maxSpeed : ℝ) :=
  updateSpeed_bounded level8 0 0 true ⟨0, 0⟩ (by simp [LEVELS]) (le_refl 0)
    (le_refl 0) (by norm_num [level8])

/-! ## C9: one-shot inputs are consumed exactly once -/

/-- C9: a router update that publishes queued one-shot requests
(`fireGunsBurst`, `fireMissile`, `flip`) consumes them: a subsequent update
with no new queue call and no tracker burst edge publishes them as
false/null, so the same queued request is never read twice. -/
theorem oneshot_inputs_consumed_once (rt : InputRouterState) (f1 f2 : FaceControls)
    (t1 t2 : ℚ) (fc : FlipCommand)
    (hq1 : rt.queuedGunBurst = true) (hq2 : rt.queuedMissile = true)
    (hq3 : rt.queuedFlip = some fc)
    (hf2 : (f2.calibrated && f2.fireBurst) = false) :
    (InputRouter.update rt f1 t1).2.fireGunsBurst = true ∧
    (InputRouter.update rt f1 t1).2.fireMissile = true ∧
    (InputRouter.update rt f1 t1).2.flip = some fc ∧
    (InputRouter.update (InputRouter.update rt f1 t1).1 f2 t2).2.fireGunsBurst = false ∧
    (InputRouter.update (InputRouter.update rt f1 t1).1 f2 t2).2.fireMissile = false ∧
    (InputRouter.update (InputRouter.update rt f1 t1).1 f2 t2).2.flip = none := by
  refine ⟨?_, ?_, ?_, ?_, ?_, ?_⟩ <;>
    simp [InputRouter.update, hq1, hq2, hq3, hf2]

/-- Witness for C9: all three one-shots queued, idle face tracking. -/
theorem oneshot_inputs_consumed_once_witness :
    (InputRouter.update routerQueued faceIdle 0).2.fireGunsBurst = true ∧
    (InputRouter.update routerQueued faceIdle 0).2.fireMissile = true ∧
    (InputRouter.update routerQueued faceIdle 0).2.flip
      = some { axis := FlipAxis.z, dir := 1 } ∧
    (InputRouter.update (InputRouter.update routerQueued faceIdle 0).1 faceIdle 16).2.fireGunsBurst
      = false ∧
    (InputRouter.update (InputRouter.update routerQueued faceIdle 0).1 faceIdle 16).2.fireMissile
      = false ∧
    (InputRouter.update (InputRouter.update routerQueued faceIdle 0).1 faceIdle 16).2.flip
      = none :=
  oneshot_inputs_consumed_once routerQueued faceIdle faceIdle 0 16
    { axis := FlipAxis.z, dir := 1 } rfl rfl rfl rfl

/-! ## C8: firing into a saturated pool is a silent no-op -/

theorem spawnLaserPool_all_active {pool : List LaserShot}
    (h : ∀ l ∈ pool, l.active = true) (p v : Vec3) (ttl : ℝ) :
    spawnLaserPool pool p v ttl = (pool, false) := by
  induction pool with
  | nil => rfl
  | cons l rest ih =>
    have hl : l.active = true := h l (List.mem_cons_self l rest)
    have hrest := ih (fun x hx => h x (List.mem_cons_of_mem l hx))
    simp [spawnLaserPool, hl, hrest]

theorem fireMissilePool_all_active {pool : List MissileSlot}
    (h : ∀ m ∈ pool, m.shot.active = true) (p v : Vec3) :
    fireMissilePool pool p v = pool := by
  induction pool with
  | nil => rfl
  | cons m rest ih =>
    have hm : m.shot.active = true := h m (List.mem_cons_self m rest)
    have hrest := ih (fun x hx => h x (List.mem_cons_of_mem m hx))
    simp [fireMissilePool, hm, hrest]

/-- C8: when every laser slot (resp. every missile slot) is active, spawning
another laser (resp. firing another missile) is a total no-op: the spawn
reports failure, the state is unchanged, no slot is modified. -/
theorem full_pool_fire_noop (g : GameState)
    (h1 : (g.lasers.all fun l => l.active) = true)
    (h2 : (g.missiles.all fun m => m.shot.active) = true) :
    Game.spawnLaser g = (g, false) ∧ Game.fireMissile g = g := by
  have h1' : ∀ l ∈ g.lasers, l.active = true := by
    simpa [List.all_eq_true] using h1
  have h2' : ∀ m ∈ g.missiles, m.shot.active = true := by
    simpa [List.all_eq_true] using h2
  constructor
  · simp only [Game.spawnLaser, spawnLaserPool_all_active h1']
  · unfold Game.fireMissile
    by_cases hr : g.running = true
    · rw [if_pos hr, fireMissilePool_all_active h2']
    · rw [if_neg hr]

/-- Witness for C8: a game state whose one laser slot and one missile slot
are both active. -/
theorem full_pool_fire_noop_witness :
    Game.spawnLaser gameAllActive = (gameAllActive, false) ∧
    Game.fireMissile gameAllActive = gameAllActive :=
  full_pool_fire_noop gameAllActive rfl rfl

/-! ## C3: Game.reset('hit') clears transients and preserves pools -/

theorem mapRng_length {α : Type} (f : α → Rng → α × Rng) (l : List α) (r : Rng) :
    ((mapRng f l r).1).length = l.length := by
  induction l generalizing r with
  | nil => rfl
  | cons a rest ih => simp [mapRng, ih]

theorem mapRng_map_eq {α β : Type} (f : α → Rng → α × Rng) (proj : α → β)
    (hf : ∀ a r, proj ((f a r).1) = proj a) (l : List α) (r : Rng) :
    ((mapRng f l r).1).map proj = l.map proj := by
  induction l generalizing r with
  | nil => rfl
  | cons a rest ih => simp [mapRng, hf, ih]

theorem mapRng_map_const {α β : Type} (f : α → Rng → α × Rng) (proj : α → β) (c : β)
    (hf : ∀ a r, proj ((f a r).1) = c) (l : List α) (r : Rng) :
    ((mapRng f l r).1).map proj = l.map (fun _ => c) := by
  induction l generalizing r with
  | nil => rfl
  | cons a rest ih => simp [mapRng, hf, ih]

/-- The embedded `World.reset` re-randomizes pool members in place and never
changes the variant or any pool's size. -/
theorem WorldState.reset_shape (w : WorldState) (r : Rng) :
    (w.reset r).1.shape = w.shape := by
  cases w with
  | orbit s =>
    simp [WorldState.reset, WorldState.shape, OrbitWorldState.reset, mapRng_length]
  | park s =>
    simp [WorldState.reset, WorldState.shape, ParkWorldState.reset, mapRng_length]

/-- C3: `Game.reset('hit')` sets the score to exactly 1, deactivates every
laser and missile slot, hides and expires every explosion (age set to its
lifetime), respawns every enemy slot alive without changing the pool's size
or any slot's persistent identity (id, kind, maxHp, radius, approachSpeed,
reward), and leaves the world variant and all of its pool sizes unchanged
(members only re-randomized in place). -/
theorem reset_hit_clears_transients_preserves_pools (g : GameState) (r : Rng) :
    (Game.reset g ResetReason.hit r).1.score = 1 ∧
    ((Game.reset g ResetReason.hit r).1.lasers.all fun l => !l.active) = true ∧
    ((Game.reset g ResetReason.hit r).1.missiles.all fun m => !m.shot.active) = true ∧
    ((Game.reset g ResetReason.hit r).1.explosions.all fun e => !e.visible) = true ∧
    (Game.reset g ResetReason.hit r).1.explosions.map (fun e => (e.age, e.lifetime))
      = g.explosions.map (fun e => (e.lifetime, e.lifetime)) ∧
    (Game.reset g ResetReason.hit r).1.lasers.length = g.lasers.length ∧
    (Game.reset g ResetReason.hit r).1.missiles.length = g.missiles.length ∧
    (Game.reset g ResetReason.hit r).1.enemies.length = g.enemies.length ∧
    (Game.reset g ResetReason.hit r).1.enemies.map
        (fun s => (s.enemy.id, s.enemy.kind, s.enemy.maxHp, s.enemy.radius,
          s.enemy.approachSpeed, s.enemy.reward))
      = g.enemies.map (fun s => (s.enemy.id, s.enemy.kind, s.enemy.maxHp, s.enemy.radius,
          s.enemy.approachSpeed, s.enemy.reward)) ∧
    (Game.reset g ResetReason.hit r).1.enemies.map (fun s => s.enemy.alive)
      = g.enemies.map (fun _ => true) ∧
    ((Game.reset g ResetReason.hit r).1.world).map WorldState.shape
      = g.world.map WorldState.shape := by
  have hmap1 : ∀ (bounds : EnemySpawnBounds) (rr : Rng),
      ((mapRng (respawnSlot bounds) g.enemies rr).1).map
        (fun s => (s.enemy.id, s.enemy.kind, s.enemy.maxHp, s.enemy.radius,
          s.enemy.approachSpeed, s.enemy.reward))
      = g.enemies.map (fun s => (s.enemy.id, s.enemy.kind, s.enemy.maxHp, s.enemy.radius,
          s.enemy.approachSpeed, s.enemy.reward)) := by
    intro bounds rr
    exact mapRng_map_eq _ _ (fun s rr2 => by simp [respawnSlot, Enemy.spawn]) g.enemies rr
  have hmap2 : ∀ (bounds : EnemySpawnBounds) (rr : Rng),
      ((mapRng (respawnSlot bounds) g.enemies rr).1).map (fun s => s.enemy.alive)
      = g.enemies.map (fun _ => true) := by
    intro bounds rr
    exact mapRng_map_const _ _ _ (fun s rr2 => by simp [respawnSlot, Enemy.spawn]) g.enemies rr
  cases hw : g.world with
  | none =>
    refine ⟨rfl, ?_, ?_, ?_, ?_, ?_, ?_, ?_, ?_, ?_, ?_⟩ <;>
      simp [Game.reset, hw, List.all_map, Function.comp, mapRng_length, hmap1, hmap2]
  | some w =>
    refine ⟨rfl, ?_, ?_, ?_, ?_, ?_, ?_, ?_, ?_, ?_, ?_⟩ <;>
      simp [Game.reset, hw, List.all_map, Function.comp, mapRng_length, hmap1, hmap2,
        WorldState.reset_shape]

/-! ## C2: the gun-burst schedule -/

theorem activateFirst_of_free {l : List Bool} (h : 0 < freeSlots l) :
    ∃ l', activateFirst l = some l' ∧ freeSlots l' + 1 = freeSlots l := by
  induction l with
  | nil => simp [freeSlots] at h
  | cons b rest ih =>
    cases b with
    | false =>
      refine ⟨true :: rest, rfl, ?_⟩
      simp [freeSlots, List.countP_cons]
    | true =>
      have h' : 0 < freeSlots rest := by
        simpa [freeSlots, List.countP_cons] using h
      obtain ⟨l', hl', hc⟩ := ih h'
      refine ⟨true :: l', ?_, ?_⟩
      · simp [activateFirst, hl']
      · simpa [freeSlots, List.countP_cons] using hc

theorem gunRun_remaining_zero (ts : List ℚ) : ∀ (g : GunState) (pool : List Bool),
    g.remaining = 0 → (gunRun g pool ts).2.2 = [] := by
  induction ts with
  | nil =>
    intro g pool _
    rfl
  | cons t ts ih =>
    intro g pool hg
    have hframe : gunFrame g pool t false = (g, pool, false) := by
      unfold gunFrame
      rw [if_neg (by simp [hg]), if_neg (by simp)]
    simp [gunRun, hframe, ih g pool hg]

/-- The heart of the amended C2: starting from a pending burst of
`g.remaining` shots whose deadline-schedule starts at `g.nextMs`, with at
least `g.remaining` free pool slots and at least `g.remaining` frames past
the last scheduled deadline `g.nextMs + 70 * (g.remaining - 1)`, the run
spawns exactly `g.remaining` lasers. -/
theorem gunRun_burst_count (ts : List ℚ) : ∀ (g : GunState) (pool : List Bool),
    g.remaining ≤ freeSlots pool →
    g.remaining ≤ ts.countP (fun t => decide (g.nextMs + 70 * ((g.remaining : ℚ) - 1) ≤ t)) →
    (gunRun g pool ts).2.2.length = g.remaining := by
  induction ts with
  | nil =>
    intro g pool _ hc
    simp only [List.countP_nil, Nat.le_zero] at hc
    simp [gunRun, hc]
  | cons t ts ih =>
    intro g pool hfree hcount
    rcases Nat.eq_zero_or_pos g.remaining with hz | hpos
    · rw [gunRun_remaining_zero (t :: ts) g pool hz, hz]
      rfl
    · have hc2 : ((g.remaining - 1 : ℕ) : ℚ) = (g.remaining : ℚ) - 1 := by
        rw [Nat.cast_sub hpos]
        norm_num
      by_cases hn : g.nextMs ≤ t
      · -- this frame fires
        have hfree0 : 0 < freeSlots pool := lt_of_lt_of_le hpos hfree
        obtain ⟨pool', hact, hcnt⟩ := activateFirst_of_free hfree0
        have hframe : gunFrame g pool t false
            = (⟨g.remaining - 1, g.nextMs + 70, t⟩, pool', true) := by
          unfold gunFrame
          rw [if_pos ⟨hpos, hn⟩, hact]
        have hfree' : g.remaining - 1 ≤ freeSlots pool' := by omega
        have hpred : (fun t' : ℚ =>
            decide ((g.nextMs + 70) + 70 * (((g.remaining - 1 : ℕ) : ℚ) - 1) ≤ t'))
            = (fun t' : ℚ => decide (g.nextMs + 70 * ((g.remaining : ℚ) - 1) ≤ t')) := by
          funext t'
          rw [decide_eq_decide]
          constructor <;> intro h' <;> nlinarith [hc2]
        have hcount' : g.remaining - 1 ≤ ts.countP
            (fun t' : ℚ =>
              decide ((g.nextMs + 70) + 70 * (((g.remaining - 1 : ℕ) : ℚ) - 1) ≤ t')) := by
          rw [hpred]
          rw [List.countP_cons] at hcount
          by_cases hp : (decide (g.nextMs + 70 * ((g.remaining : ℚ) - 1) ≤ t)) = true
          · rw [if_pos hp] at hcount
            omega
          · rw [if_neg hp] at hcount
            omega
        have hrec := ih ⟨g.remaining - 1, g.nextMs + 70, t⟩ pool' hfree' hcount'
        simp only [gunRun, hframe, if_pos, List.length_cons]
        simp only [hframe] at hrec ⊢
        simp [hrec]
        omega
      · -- this frame does not fire
        have hframe : gunFrame g pool t false = (g, pool, false) := by
          unfold gunFrame
          rw [if_neg (fun hcontra => hn hcontra.2), if_neg (by simp)]
        have hr1 : (1 : ℚ) ≤ (g.remaining : ℚ) := by exact_mod_cast hpos
        have hpredt : (decide (g.nextMs + 70 * ((g.remaining : ℚ) - 1) ≤ t)) = false := by
          apply decide_eq_false
          have htlt : t < g.nextMs := not_le.mp hn
          intro hcontra
          nlinarith
        have hcount' : g.remaining ≤ ts.countP
            (fun t' : ℚ => decide (g.nextMs + 70 * ((g.remaining : ℚ) - 1) ≤ t')) := by
          rw [List.countP_cons, hpredt] at hcount
          simpa using hcount
        simp [gunRun, hframe, ih g pool hfree hcount']

theorem gunRun_times_sublist (ts : List ℚ) : ∀ (g : GunState) (pool : List Bool),
    (gunRun g pool ts).2.2.Sublist ts := by
  induction ts with
  | nil =>
    intro g pool
    simp [gunRun]
  | cons t ts ih =>
    intro g pool
    simp only [gunRun]
    by_cases hfired : (gunFrame g pool t false).2.2 = true
    · rw [if_pos hfired]
      exact List.Sublist.cons₂ t (ih _ _)
    · rw [if_neg hfired]
      exact List.Sublist.cons t (ih _ _)

theorem queueGunBurst_from_reset (q : ℚ) (h0 : 0 ≤ q) :
    Game.queueGunBurst true q 5 gunInit = ⟨5, q, 0⟩ := by
  have h5 : ⌊(5 : ℚ)⌋ = 5 := by
    rw [show (5 : ℚ) = ((5 : ℤ) : ℚ) by norm_num]
    exact Int.floor_intCast 5
  have hq5 : (max 1 ⌊(5 : ℚ)⌋).toNat = 5 := by
    rw [h5]
    decide
  have hnext : (if (0 : ℚ) < q then q else (0 : ℚ)) = q := by
    rcases lt_or_eq_of_le h0 with h | h
    · rw [if_pos h]
    · rw [if_neg (h ▸ lt_irrefl 0)]
      exact h
  simp [Game.queueGunBurst, gunInit, hq5, hnext]

/-- C2 is false as stated: with a burst queued at time 0 and frames at
500, 516, 600, 700, 800 ms (all after the whole 70ms schedule has elapsed),
every frame fires (deadline catch-up), so two consecutive spawns are only
16 ms apart — less than the 70 ms sub-interval. -/
theorem gunBurst_spacing_not_70ms : ¬ claimC2Stated := by
  intro h
  have hchain : List.Chain' (fun a b : ℚ => a < b) [500, 516, 600, 700, 800] := by
    norm_num [List.chain'_cons, List.chain'_singleton]
  have hmem : ∀ t ∈ ([500, 516, 600, 700, 800] : List ℚ), (0 : ℚ) ≤ t := by
    norm_num [List.forall_mem_cons]
  have hfree : 5 ≤ freeSlots (List.replicate 5 false) := by decide
  have hcountP : 5 ≤ List.countP (fun t => decide ((0 : ℚ) + 280 ≤ t))
      [500, 516, 600, 700, 800] := by
    norm_num [List.countP_cons, List.countP_nil]
  have happ := h 0 (List.replicate 5 false) [500, 516, 600, 700, 800] (le_refl 0)
    hchain hmem hfree hcountP
  rw [queueGunBurst_from_reset 0 (le_refl 0)] at happ
  have heval : (gunRun ⟨5, 0, 0⟩ (List.replicate 5 false) [500, 516, 600, 700, 800]).2.2
      = [500, 516, 600, 700, 800] := by
    norm_num [gunRun, gunFrame, activateFirst, List.replicate]
  rw [heval] at happ
  have hviol : ¬ List.Chain' (fun a b : ℚ => 70 ≤ b - a) [500, 516, 600, 700, 800] := by
    norm_num [List.chain'_cons, List.chain'_singleton]
  exact hviol happ.2

/-- C2 (amended): a gun-burst request processed while running enqueues
exactly `GUN_BURST_COUNT = 5` shots, scheduled `GUN_BURST_INTERVAL_MS = 70`
ms apart (the deadline advances by 70ms per shot) with at most one burst
shot per frame (the spawn times are a sub-list of the frame times), and
spawns exactly 5 lasers provided the pool has at least 5 inactive slots —
never more than the pool's free slots.  When frames are delayed past a
deadline, pending shots catch up on consecutive frames, so consecutive
spawn *times* can be closer together than 70 ms. -/
theorem gunBurst_exact_count (q : ℚ) (pool : List Bool) (ts : List ℚ)
    (h0 : 0 ≤ q) (h1 : List.Chain' (fun a b => a < b) ts) (h2 : ∀ t ∈ ts, q ≤ t)
    (h3 : 5 ≤ freeSlots pool)
    (h4 : 5 ≤ ts.countP (fun t => decide (q + 280 ≤ t))) :
    (gunRun (Game.queueGunBurst true q 5 gunInit) pool ts).2.2.length = 5 ∧
    (gunRun (Game.queueGunBurst true q 5 gunInit) pool ts).2.2.Sublist ts := by
  rw [queueGunBurst_from_reset q h0]
  refine ⟨?_, gunRun_times_sublist ts _ _⟩
  apply gunRun_burst_count ts ⟨5, q, 0⟩ pool h3
  have hpred : (fun t : ℚ => decide (q + 70 * (((5 : ℕ) : ℚ) - 1) ≤ t))
      = (fun t : ℚ => decide (q + 280 ≤ t)) := by
    funext t
    rw [decide_eq_decide]
    constructor <;> intro h' <;> (push_cast at h' ⊢; linarith)
  rw [show ((⟨5, q, 0⟩ : GunState).nextMs) = q from rfl,
    show ((⟨5, q, 0⟩ : GunState).remaining) = 5 from rfl, hpred]
  exact h4

/-- Witness for the amended C2: burst queued at time 0, 5 free slots, frames
at 280, 351, 422, 493, 564 ms. -/
theorem gunBurst_exact_count_witness :
    (gunRun (Game.queueGunBurst true 0 5 gunInit) (List.replicate 5 false)
      [280, 351, 422, 493, 564]).2.2.length = 5 ∧
    (gunRun (Game.queueGunBurst true 0 5 gunInit) (List.replicate 5 false)
      [280, 351, 422, 493, 564]).2.2.Sublist [280, 351, 422, 493, 564] :=
  gunBurst_exact_count 0 (List.replicate 5 false) [280, 351, 422, 493, 564]
    (le_refl 0) (by norm_num [List.chain'_cons, List.chain'_singleton])
    (by norm_num [List.forall_mem_cons]) (by decide)
    (by norm_num [List.countP_cons, List.countP_nil])

/-! ## C4: missile homing -/

theorem Vec3.length_axisZ (c : ℝ) (h : 0 ≤ c) : Vec3.length ⟨0, 0, c⟩ = c := by
  unfold Vec3.length
  rw [show ((0 : ℝ) * 0 + 0 * 0 + c * c) = c * c by ring, Real.sqrt_mul_self h]

theorem Vec3.length_axisX (c : ℝ) (h : 0 ≤ c) : Vec3.length ⟨c, 0, 0⟩ = c := by
  unfold Vec3.length
  rw [show (c * c + (0 : ℝ) * 0 + 0 * 0) = c * c by ring, Real.sqrt_mul_self h]

theorem Vec3.normalize_axisZ (c : ℝ) (h : 0 < c) :
    Vec3.normalize ⟨0, 0, c⟩ = ⟨0, 0, 1⟩ := by
  unfold Vec3.normalize
  rw [Vec3.length_axisZ c h.le, if_neg (ne_of_gt h)]
  have hc : c * c⁻¹ = 1 := mul_inv_cancel₀ (ne_of_gt h)
  simp [Vec3.smul, hc]

theorem Vec3.normalize_axisX (c : ℝ) (h : 0 < c) :
    Vec3.normalize ⟨c, 0, 0⟩ = ⟨1, 0, 0⟩ := by
  unfold Vec3.normalize
  rw [Vec3.length_axisX c h.le, if_neg (ne_of_gt h)]
  have hc : c * c⁻¹ = 1 := mul_inv_cancel₀ (ne_of_gt h)
  simp [Vec3.smul, hc]

/-- C4 is false as stated: a target at positive distance `5e-7` (inside the
code's `1e-6` homing guard) leaves the velocity unchanged while the claim's
blend formula would rotate it.  Missile heading +z at speed 2, target on
the +x axis, `turnRate*dt = 1`: the code keeps `vel = (0,0,2)` but the
claim prescribes `(2,0,0)`. -/
theorem missile_homing_claim_false : ¬ claimC4Stated := by
  intro h
  have hsub : targetInsideGuard.sub missileAxisZ.pos = ⟨1 / 2000000, 0, 0⟩ := by
    simp [Vec3.sub, targetInsideGuard, missileAxisZ, Vec3.zero]
  have hlen : Vec3.length ⟨1 / 2000000, 0, 0⟩ = 1 / 2000000 :=
    Vec3.length_axisX _ (by norm_num)
  have h2 : (0 : ℝ) < missileAxisZ.ttl - 1 := by norm_num [missileAxisZ]
  have h3 : (0 : ℝ) < (targetInsideGuard.sub missileAxisZ.pos).length := by
    rw [hsub, hlen]
    norm_num
  obtain ⟨hA, _, _⟩ := h missileAxisZ 1 1 targetInsideGuard rfl h2 h3
  have hupd : (missileAxisZ.update 1 (some targetInsideGuard) 1).vel = ⟨0, 0, 2⟩ := by
    simp only [MissileShot.update]
    rw [if_pos (show missileAxisZ.active = true from rfl),
      if_neg (show ¬ (missileAxisZ.ttl - 1 ≤ 0) by norm_num [missileAxisZ]),
      hsub, hlen, if_neg (show ¬ ((1 : ℝ) / 1000000 < 1 / 2000000) by norm_num)]
    rfl
  rw [hupd] at hA
  have hnv : missileAxisZ.vel.normalize = ⟨0, 0, 1⟩ := by
    show Vec3.normalize ⟨0, 0, 2⟩ = ⟨0, 0, 1⟩
    exact Vec3.normalize_axisZ 2 (by norm_num)
  have hnd : (targetInsideGuard.sub missileAxisZ.pos).normalize = ⟨1, 0, 0⟩ := by
    rw [hsub]
    exact Vec3.normalize_axisX _ (by norm_num)
  have hclamp : clamp ((1 : ℝ) * 1) 0 1 = 1 := by norm_num [clamp]
  have hvl : Vec3.vlerp ⟨0, 0, 1⟩ ⟨1, 0, 0⟩ 1 = ⟨1, 0, 0⟩ := by
    norm_num [Vec3.vlerp]
  have hlv : missileAxisZ.vel.length = 2 := by
    show Vec3.length ⟨0, 0, 2⟩ = 2
    exact Vec3.length_axisZ 2 (by norm_num)
  rw [hnv, hnd, hclamp, hvl, Vec3.normalize_axisX 1 (by norm_num), hlv] at hA
  have hx := congrArg Vec3.x hA
  simp [Vec3.smul] at hx

/-- C4 (amended): for an active missile with remaining ttl and a target
farther than the code's `1e-6` guard, one step sets the velocity to the
normalized blend of the current heading toward the target direction
(by `clamp(turnRate*dt, 0, 1)`) rescaled to the previous speed; the speed
magnitude is conserved provided the blended vector is nonzero (with THREE's
convention `normalize(0) = 0`, a target exactly opposite with
`turnRate*dt = 1/2` would zero the velocity); the position then advances by
the new velocity; and with no target the velocity is unchanged (the missile
flies straight). -/
theorem missile_homing_step (m : MissileShot) (dt turnRate : ℝ) (tp : Vec3)
    (h1 : m.active = true) (h2 : 0 < m.ttl - dt)
    (h3 : 1 / 1000000 < (tp.sub m.pos).length)
    (h4 : Vec3.vlerp m.vel.normalize ((tp.sub m.pos).normalize)
      (clamp (turnRate * dt) 0 1) ≠ Vec3.zero) :
    (m.update dt (some tp) turnRate).vel
      = ((Vec3.vlerp m.vel.normalize ((tp.sub m.pos).normalize)
          (clamp (turnRate * dt) 0 1)).normalize).smul m.vel.length ∧
    (m.update dt (some tp) turnRate).vel.length = m.vel.length ∧
    (m.update dt (some tp) turnRate).pos
      = m.pos.add (((Vec3.vlerp m.vel.normalize ((tp.sub m.pos).normalize)
          (clamp (turnRate * dt) 0 1)).normalize.smul m.vel.length).smul dt) ∧
    (m.update dt none turnRate).vel = m.vel := by
  have hlenpos : (0 : ℝ) < (tp.sub m.pos).length := lt_trans (by norm_num) h3
  have hne : tp.sub m.pos ≠ Vec3.zero := fun h0 =>
    absurd ((Vec3.length_eq_zero_iff _).mpr h0) (ne_of_gt hlenpos)
  have hdir : (tp.sub m.pos).smul (1 / (tp.sub m.pos).length) = (tp.sub m.pos).normalize :=
    (Vec3.normalize_of_ne_zero hne).symm
  have hnotend : ¬ (m.ttl - dt ≤ 0) := not_le.mpr h2
  have hupd : m.update dt (some tp) turnRate
      = { m with
          ttl := m.ttl - dt
          vel := ((Vec3.vlerp m.vel.normalize ((tp.sub m.pos).normalize)
            (clamp (turnRate * dt) 0 1)).normalize).smul m.vel.length
          pos := m.pos.add (((Vec3.vlerp m.vel.normalize ((tp.sub m.pos).normalize)
            (clamp (turnRate * dt) 0 1)).normalize.smul m.vel.length).smul dt) } := by
    simp only [MissileShot.update]
    rw [if_pos h1, if_neg hnotend, if_pos h3, hdir]
  refine ⟨by rw [hupd], ?_, by rw [hupd], ?_⟩
  · rw [hupd]
    show ((Vec3.vlerp m.vel.normalize ((tp.sub m.pos).normalize)
      (clamp (turnRate * dt) 0 1)).normalize.smul m.vel.length).length = m.vel.length
    rw [Vec3.length_smul, Vec3.length_normalize h4, mul_one,
      abs_of_nonneg (Vec3.length_nonneg m.vel)]
  · simp only [MissileShot.update]
    rw [if_pos h1, if_neg hnotend]

/-- Witness for the amended C4: missile heading +z at speed 2, target
straight ahead at distance 10, `turnRate = 0`, `dt = 1/2`. -/
theorem missile_homing_step_witness :
    (missileAxisZ.update (1 / 2) (some targetAhead) 0).vel
      = ((Vec3.vlerp missileAxisZ.vel.normalize ((targetAhead.sub missileAxisZ.pos).normalize)
          (clamp ((0 : ℝ) * (1 / 2)) 0 1)).normalize).smul missileAxisZ.vel.length ∧
    (missileAxisZ.update (1 / 2) (some targetAhead) 0).vel.length
      = missileAxisZ.vel.length ∧
    (missileAxisZ.update (1 / 2) (some targetAhead) 0).pos
      = missileAxisZ.pos.add
        (((Vec3.vlerp missileAxisZ.vel.normalize ((targetAhead.sub missileAxisZ.pos).normalize)
          (clamp ((0 : ℝ) * (1 / 2)) 0 1)).normalize.smul missileAxisZ.vel.length).smul (1 / 2)) ∧
    (missileAxisZ.update (1 / 2) none 0).vel = missileAxisZ.vel := by
  have hsub2 : targetAhead.sub missileAxisZ.pos = ⟨0, 0, 10⟩ := by
    simp [Vec3.sub, targetAhead, missileAxisZ, Vec3.zero]
  refine missile_homing_step missileAxisZ (1 / 2) 0 targetAhead rfl
    (by norm_num [missileAxisZ]) ?_ ?_
  · rw [hsub2, Vec3.length_axisZ 10 (by norm_num)]
    norm_num
  · intro heq
    have hclamp0 : clamp ((0 : ℝ) * (1 / 2)) 0 1 = 0 := by norm_num [clamp]
    have hnv : missileAxisZ.vel.normalize = ⟨0, 0, 1⟩ := by
      show Vec3.normalize ⟨0, 0, 2⟩ = ⟨0, 0, 1⟩
      exact Vec3.normalize_axisZ 2 (by norm_num)
    have hnd2 : (targetAhead.sub missileAxisZ.pos).normalize = ⟨0, 0, 1⟩ := by
      rw [hsub2]
      exact Vec3.normalize_axisZ 10 (by norm_num)
    rw [hclamp0, hnv, hnd2] at heq
    have hvz : Vec3.vlerp ⟨0, 0, 1⟩ ⟨0, 0, 1⟩ 0 = (⟨0, 0, 1⟩ : Vec3) := by
      norm_num [Vec3.vlerp]
    rw [hvz] at heq
    simp [Vec3.zero] at heq

end DroneLips
